import Mathlib

/-! # syslog-ng Kafka destination driver (`modules/kafka/kafka-dest-driver.c`)

A shallow embedding of the driver's topic-name validator, topic cache,
delivery-report callback, initialisation and drain sequence, followed by the
properties proved about them.

Conventions of the embedding

* A C string (`const gchar *`) is the list of its characters before the
  terminating NUL; `NULL` pointers are `none`.
* `gint` values are `Int`; the one narrowing conversion in the file
  (`gint len = strlen(name)`) is made explicit by `gint_of_gsize`.
* Calls into librdkafka, glib and the syslog-ng core are not part of this
  source file.  What such a call returns is an input of the embedded function
  (an "answer" argument), and the calls a function makes are recorded, in
  order, in the list of `Call`s it returns.
* `g_assert` failures (process abort) and glib precondition failures are the
  `none` result of an `Option`-valued function.
-/

namespace KafkaDest

/-! ## Strings and machine integers -/

/-- A C string: the characters before the terminating NUL, one `Char` for each
`gchar` (the code compares characters with ASCII literals only). -/
abbrev CStr := List Char

/-- The C library `strlen`: number of characters before the NUL. -/
def strlen (s : CStr) : Nat := s.length

/-- Conversion of a `size_t` value to `gint` (a 32-bit two's complement `int`),
as gcc and clang define it: the value is reduced modulo `2^32` into the range
`[-2^31, 2^31)`. -/
def gint_of_gsize (n : Nat) : Int :=
  if n % 2 ^ 32 < 2 ^ 31 then ((n % 2 ^ 32 : Nat) : Int)
  else ((n % 2 ^ 32 : Nat) : Int) - 2 ^ 32

/-- The glib `g_strcmp0` on two non-NULL strings, as used here: `0` exactly when
the strings are equal. -/
def g_strcmp0 (a b : CStr) : Int := if a = b then 0 else if a < b then -1 else 1

/-! ## Name validator -/

/-- The character test inside the loop of `_contains_valid_pattern`. -/
def valid_topic_char (p : Char) : Bool :=
  (decide ('a' ≤ p) && decide (p ≤ 'z')) ||
  (decide ('A' ≤ p) && decide (p ≤ 'Z')) ||
  (decide ('0' ≤ p) && decide (p ≤ '9')) ||
  (p == '_') || (p == '-') || (p == '.')

/-- The loop `for (p = name; *p; p++)` of `_contains_valid_pattern`: `FALSE` at
the first character outside the pattern, `TRUE` when the NUL is reached. -/
def _contains_valid_pattern : CStr → Bool
  | [] => true
  | p :: rest => if !(valid_topic_char p) then false else _contains_valid_pattern rest

/-- The error codes of the `TOPIC_NAME_ERROR` domain set by the validator. -/
inductive KafkaTopicError where
  | TOPIC_LENGTH_ZERO
  | TOPIC_DOT_TWO_DOTS
  | TOPIC_EXCEEDS_MAX_LENGTH
  | TOPIC_INVALID_PATTERN
  deriving DecidableEq, Repr

open KafkaTopicError

/-- The function `kafka_dd_validate_topic_name(name, &error)`: the returned
`gboolean` and the error code stored through `error` (`none` when it is left
unset). -/
def kafka_dd_validate_topic_name (name : CStr) : Bool × Option KafkaTopicError :=
  let len : Int := gint_of_gsize (strlen name)
  if len = 0 then
    (false, some TOPIC_LENGTH_ZERO)
  else if g_strcmp0 name ['.'] = 0 || g_strcmp0 name ['.', '.'] = 0 then
    (false, some TOPIC_DOT_TWO_DOTS)
  else if len > 249 then
    (false, some TOPIC_EXCEEDS_MAX_LENGTH)
  else if !(_contains_valid_pattern name) then
    (false, some TOPIC_INVALID_PATTERN)
  else
    (true, none)

/-- The character class `[A-Za-z0-9_.-]` of the specification. -/
def in_topic_charset (c : Char) : Prop :=
  ('A' ≤ c ∧ c ≤ 'Z') ∨ ('a' ≤ c ∧ c ≤ 'z') ∨ ('0' ≤ c ∧ c ≤ '9') ∨
    c = '_' ∨ c = '.' ∨ c = '-'

instance (c : Char) : Decidable (in_topic_charset c) := by
  unfold in_topic_charset; exact inferInstance

/-! ## Objects of the driver and of its collaborators -/

/-- Identity (address) of a `LogMessage`. -/
abbrev LogMessage := Nat

/-- Identity (address) of a broker client, `rd_kafka_t *`. -/
abbrev rd_kafka_t := Nat

/-- Identity (address) of a topic handle, `rd_kafka_topic_t *`. -/
abbrev rd_kafka_topic_t := Nat

/-- The librdkafka error code type; `0` is success. -/
abbrev rd_kafka_resp_err_t := Int

def RD_KAFKA_RESP_ERR_NO_ERROR : rd_kafka_resp_err_t := 0

/-- The librdkafka flag `RD_KAFKA_PURGE_F_QUEUE` (`0x1`). -/
def RD_KAFKA_PURGE_F_QUEUE : Nat := 1

/-- The librdkafka flag `RD_KAFKA_PURGE_F_INFLIGHT` (`0x2`). -/
def RD_KAFKA_PURGE_F_INFLIGHT : Nat := 2

/-- A `LogTemplate`, of which the driver reads the source text `template`. -/
structure LogTemplate where
  template : CStr
  deriving DecidableEq, Repr

/-- A `KafkaProperty`: one name and value pair of the user configuration. -/
structure KafkaProperty where
  name : CStr
  value : CStr
  deriving DecidableEq, Repr

/-- The table `self->topics`: a `GHashTable` from topic name (compared with
`g_str_equal`) to topic handle, as the list of its entries. -/
abbrev GHashTable := List (CStr × rd_kafka_topic_t)

/-- The call `g_hash_table_new_full(...)`: the empty table. -/
def g_hash_table_new_full : GHashTable := []

/-- The call `g_hash_table_lookup(table, key)`: the value stored under an equal
key, `NULL` when there is none. -/
def g_hash_table_lookup : GHashTable → CStr → Option rd_kafka_topic_t
  | [], _ => none
  | (k, v) :: rest, key => if k = key then some v else g_hash_table_lookup rest key

/-- The call `g_hash_table_insert(table, key, value)`: the value of an equal key
is replaced, otherwise a new entry is added. -/
def g_hash_table_insert : GHashTable → CStr → rd_kafka_topic_t → GHashTable
  | [], key, value => [(key, value)]
  | (k, v) :: rest, key, value =>
    if k = key then (k, value) :: rest else (k, v) :: g_hash_table_insert rest key value

/-- The fields of `KafkaDestDriver` that the functions below read or write. -/
structure KafkaDestDriver where
  topic_name : Option LogTemplate
  fallback_topic_name : Option CStr
  config : List KafkaProperty
  bootstrap_servers : Option CStr
  key : Option LogTemplate
  message : Option LogTemplate
  flush_timeout_on_shutdown : Int
  flush_timeout_on_reload : Int
  poll_timeout : Int
  kafka : Option rd_kafka_t
  topic : Option rd_kafka_topic_t
  topics : Option GHashTable
  deriving DecidableEq, Repr

/-- The diagnostic messages emitted by the embedded functions, one per
`msg_debug` / `msg_verbose` / `msg_notice` / `msg_error` call site. -/
inductive Message where
  /-- Text `Error constructing topic` (error). -/
  | error_constructing_topic
  /-- Text `kafka: delivery report for message came back with an error, putting it
  back to our queue` (debug). -/
  | delivery_report_error
  /-- Text `kafka: delivery report successful` (debug). -/
  | delivery_report_successful
  /-- Text `kafka: setting librdkafka config property` (debug). -/
  | setting_config_property
  /-- Text `kafka: error setting librdkafka config property` (error). -/
  | error_setting_config_property
  /-- Text `kafka: error constructing the kafka connection object` (error). -/
  | error_constructing_connection_object
  /-- Text `kafka: shutting down kafka producer, while messages are still
  in-flight, waiting for messages to flush` (notice). -/
  | messages_still_in_flight
  /-- Text `kafka: error flushing accumulated messages during shutdown ...` (error). -/
  | error_flushing
  /-- Text `kafka: timeout while waiting for the librdkafka queue to empty ...`
  (notice). -/
  | timeout_waiting_for_queue
  /-- Text `kafka: failed to completely empty rdkafka queues, as we still have
  entries in the queue after flush() and purge() ...` (notice). -/
  | failed_to_empty_queues
  /-- Text `kafka: The topic name is a template` (debug). -/
  | topic_name_is_a_template
  /-- Text `kafka: fallback_topic() required when the topic name is a template`
  (error). -/
  | fallback_topic_required
  /-- Text `kafka: error constructing the fallback topic object` (error). -/
  | error_constructing_fallback_topic
  /-- Text `kafka: error constructing the kafka topic object` (error). -/
  | error_constructing_kafka_topic
  /-- Text `kafka: the topic() argument is required for kafka destinations` (error). -/
  | topic_argument_required
  /-- Text `kafka: error constructing kafka connection object, perhaps
  metadata.broker.list property is missing?` (error). -/
  | error_constructing_connection
  /-- Text `kafka: Kafka destination initialized` (verbose). -/
  | destination_initialized
  deriving DecidableEq, Repr

/-- The calls that the embedded functions make into librdkafka and the syslog-ng
core, with their arguments (and, for `rd_kafka_topic_new`, the handle returned). -/
inductive Call where
  | msg_event (m : Message)
  | log_queue_push_head (msg : LogMessage)
  | log_msg_unref (msg : LogMessage)
  | log_threaded_dest_worker_wakeup_when_suspended
  | rd_kafka_conf_set (name : CStr) (value : Option CStr)
  | rd_kafka_conf_set_log_cb
  | rd_kafka_conf_set_dr_cb
  | rd_kafka_conf_set_opaque
  | rd_kafka_new
  | rd_kafka_topic_new (rk : rd_kafka_t) (name : CStr) (result : Option rd_kafka_topic_t)
  | rd_kafka_outq_len (rk : Option rd_kafka_t)
  | rd_kafka_flush (rk : Option rd_kafka_t) (timeout_ms : Int)
  | rd_kafka_purge (rk : Option rd_kafka_t) (purge_flags : Nat)
  | rd_kafka_poll (rk : Option rd_kafka_t) (timeout_ms : Int)
  | log_threaded_dest_driver_init_method
  | log_threaded_dest_driver_deinit_method
  deriving DecidableEq, Repr

/-! ## Configuration -/

/-- The function `kafka_dd_new`: `g_new0` clears every field, then the three
timeouts get their defaults. -/
def kafka_dd_new : KafkaDestDriver :=
  { topic_name := none, fallback_topic_name := none, config := [], bootstrap_servers := none,
    key := none, message := none,
    flush_timeout_on_shutdown := 60000, flush_timeout_on_reload := 1000, poll_timeout := 1000,
    kafka := none, topic := none, topics := none }

def kafka_dd_set_topic (self : KafkaDestDriver) (topic : Option LogTemplate) : KafkaDestDriver :=
  { self with topic_name := topic }

def kafka_dd_set_fallback_topic (self : KafkaDestDriver) (fallback_topic : Option CStr) :
    KafkaDestDriver :=
  { self with fallback_topic_name := fallback_topic }

def kafka_dd_merge_config (self : KafkaDestDriver) (props : List KafkaProperty) :
    KafkaDestDriver :=
  { self with config := self.config ++ props }

def kafka_dd_set_bootstrap_servers (self : KafkaDestDriver) (bootstrap_servers : Option CStr) :
    KafkaDestDriver :=
  { self with bootstrap_servers := bootstrap_servers }

def kafka_dd_set_key_ref (self : KafkaDestDriver) (key : Option LogTemplate) : KafkaDestDriver :=
  { self with key := key }

def kafka_dd_set_message_ref (self : KafkaDestDriver) (message : Option LogTemplate) :
    KafkaDestDriver :=
  { self with message := message }

def kafka_dd_set_flush_timeout_on_shutdown (self : KafkaDestDriver)
    (flush_timeout_on_shutdown : Int) : KafkaDestDriver :=
  { self with flush_timeout_on_shutdown := flush_timeout_on_shutdown }

def kafka_dd_set_flush_timeout_on_reload (self : KafkaDestDriver)
    (flush_timeout_on_reload : Int) : KafkaDestDriver :=
  { self with flush_timeout_on_reload := flush_timeout_on_reload }

def kafka_dd_set_poll_timeout (self : KafkaDestDriver) (poll_timeout : Int) : KafkaDestDriver :=
  { self with poll_timeout := poll_timeout }

/-- One call of a configuration setter, with its argument. -/
inductive Setter where
  | set_topic (topic : Option LogTemplate)
  | set_fallback_topic (fallback_topic : Option CStr)
  | merge_config (props : List KafkaProperty)
  | set_bootstrap_servers (bootstrap_servers : Option CStr)
  | set_key_ref (key : Option LogTemplate)
  | set_message_ref (message : Option LogTemplate)
  | set_flush_timeout_on_shutdown (flush_timeout_on_shutdown : Int)
  | set_flush_timeout_on_reload (flush_timeout_on_reload : Int)
  | set_poll_timeout (poll_timeout : Int)
  deriving DecidableEq, Repr

/-- The effect of one setter call on the driver. -/
def Setter.apply (self : KafkaDestDriver) : Setter → KafkaDestDriver
  | .set_topic t => kafka_dd_set_topic self t
  | .set_fallback_topic f => kafka_dd_set_fallback_topic self f
  | .merge_config ps => kafka_dd_merge_config self ps
  | .set_bootstrap_servers b => kafka_dd_set_bootstrap_servers self b
  | .set_key_ref k => kafka_dd_set_key_ref self k
  | .set_message_ref m => kafka_dd_set_message_ref self m
  | .set_flush_timeout_on_shutdown t => kafka_dd_set_flush_timeout_on_shutdown self t
  | .set_flush_timeout_on_reload t => kafka_dd_set_flush_timeout_on_reload self t
  | .set_poll_timeout t => kafka_dd_set_poll_timeout self t

/-- Whether the setter is one of the two flush timeout setters. -/
def Setter.sets_flush_timeout : Setter → Bool
  | .set_flush_timeout_on_shutdown _ => true
  | .set_flush_timeout_on_reload _ => true
  | _ => false

/-- The driver obtained from `kafka_dd_new` by the setter calls `ops`, in order. -/
def configured (ops : List Setter) : KafkaDestDriver :=
  ops.foldl Setter.apply kafka_dd_new

/-- The function `kafka_dd_is_topic_name_a_template`: `self->topic == NULL`. -/
def kafka_dd_is_topic_name_a_template (self : KafkaDestDriver) : Bool :=
  self.topic.isNone

/-! ## Topic construction and the topic cache -/

/-- The function `_construct_topic(self, name)`.  The argument `topic_new` is
what `rd_kafka_topic_new` returns if it is called.  The result is `none` when
`g_assert(self->kafka != NULL)` fails. -/
def _construct_topic (self : KafkaDestDriver) (name : CStr)
    (topic_new : Option rd_kafka_topic_t) : Option (Option rd_kafka_topic_t × List Call) :=
  match self.kafka with
  | none => none
  | some rk =>
    if (kafka_dd_validate_topic_name name).1 then
      some (topic_new, [Call.rd_kafka_topic_new rk name topic_new])
    else
      some (none, [Call.msg_event Message.error_constructing_topic])

/-- The function `kafka_dd_query_insert_topic(self, name)`, whose body runs with
`topics_lock` held.  The argument `topic_new` is what `rd_kafka_topic_new`
returns if it is called.  The result is the returned handle, the driver
afterwards and the calls made; it is `none` when the assertion of
`_construct_topic` fails or when `self->topics` is `NULL`, which the glib
table functions do not accept. -/
def kafka_dd_query_insert_topic (self : KafkaDestDriver) (name : CStr)
    (topic_new : Option rd_kafka_topic_t) :
    Option (Option rd_kafka_topic_t × KafkaDestDriver × List Call) :=
  match self.topics with
  | none => none
  | some topics =>
    match g_hash_table_lookup topics name with
    | some topic => some (some topic, self, [])
    | none =>
      match _construct_topic self name topic_new with
      | none => none
      | some (none, calls) => some (none, self, calls)
      | some (some topic, calls) =>
        some (some topic, { self with topics := some (g_hash_table_insert topics name topic) },
          calls)

/-! ## Delivery report callback -/

/-- The function `_kafka_delivery_report_cb(rk, payload, len, err, opaque,
msg_opaque)` with `self` the driver passed as `opaque` and `msg` the message
passed as `msg_opaque`: the calls it makes, in order.  The queue that receives
`log_queue_push_head` is that of worker 0, which is also the worker woken. -/
def _kafka_delivery_report_cb (_self : KafkaDestDriver) (err : rd_kafka_resp_err_t)
    (msg : LogMessage) : List Call :=
  (if err ≠ RD_KAFKA_RESP_ERR_NO_ERROR then
    [Call.msg_event Message.delivery_report_error, Call.log_queue_push_head msg]
  else
    [Call.msg_event Message.delivery_report_successful, Call.log_msg_unref msg])
  ++ [Call.log_threaded_dest_worker_wakeup_when_suspended]

/-! ## Broker client construction -/

/-- What the environment answers to the calls made during `kafka_dd_init`:
the return value of `rd_kafka_conf_set` for a property, the client returned by
`rd_kafka_new` (`none` for `NULL`), the handle returned by `rd_kafka_topic_new`
(`none` for `NULL`) and the result of `log_threaded_dest_driver_init_method`. -/
structure InitAnswers where
  rd_kafka_conf_set : CStr → Option CStr → Int
  rd_kafka_new : Option rd_kafka_t
  rd_kafka_topic_new : Option rd_kafka_topic_t
  log_threaded_dest_driver_init_method : Bool

/-- The function `_conf_set_prop(conf, name, value)`: the calls it makes. -/
def _conf_set_prop (ans : InitAnswers) (name : CStr) (value : Option CStr) : List Call :=
  [Call.msg_event Message.setting_config_property, Call.rd_kafka_conf_set name value] ++
    (if ans.rd_kafka_conf_set name value < 0 then
      [Call.msg_event Message.error_setting_config_property]
    else [])

/-- The function `_apply_config_props(conf, props)`: the calls made by its loop
over the property list. -/
def _apply_config_props (ans : InitAnswers) : List KafkaProperty → List Call
  | [] => []
  | kp :: ll => _conf_set_prop ans kp.name (some kp.value) ++ _apply_config_props ans ll

/-- The function `_construct_client(self)`: the client returned and the calls
made. -/
def _construct_client (self : KafkaDestDriver) (ans : InitAnswers) :
    Option rd_kafka_t × List Call :=
  let calls :=
    _conf_set_prop ans "metadata.broker.list".toList self.bootstrap_servers ++
    _conf_set_prop ans "topic.partitioner".toList (some "murmur2_random".toList) ++
    _apply_config_props ans self.config ++
    [Call.rd_kafka_conf_set_log_cb, Call.rd_kafka_conf_set_dr_cb, Call.rd_kafka_conf_set_opaque,
      Call.rd_kafka_new]
  match ans.rd_kafka_new with
  | some client => (some client, calls)
  | none => (none, calls ++ [Call.msg_event Message.error_constructing_connection_object])

/-! ## Drain on shutdown or reload -/

/-- What the environment answers to the calls made during `kafka_dd_deinit`:
whether the configuration is shutting down, the successive readings of
`rd_kafka_outq_len`, the result of `rd_kafka_flush` and the result of
`log_threaded_dest_driver_deinit_method`. -/
structure DeinitAnswers where
  cfg_is_shutting_down : Bool
  outq_len_before_flush : Int
  rd_kafka_flush : rd_kafka_resp_err_t
  outq_len_on_flush_error : Int
  outq_len_after_flush : Int
  outq_len_after_purge : Int
  log_threaded_dest_driver_deinit_method : Bool
  deriving DecidableEq, Repr

/-- The function `_get_flush_timeout(self)`, given what `cfg_is_shutting_down`
answers. -/
def _get_flush_timeout (self : KafkaDestDriver) (cfg_is_shutting_down : Bool) : Int :=
  if cfg_is_shutting_down then self.flush_timeout_on_shutdown
  else self.flush_timeout_on_reload

/-- The function `_flush_inflight_messages(self)`: the calls it makes. -/
def _flush_inflight_messages (self : KafkaDestDriver) (ans : DeinitAnswers) : List Call :=
  let timeout := _get_flush_timeout self ans.cfg_is_shutting_down
  [Call.rd_kafka_outq_len self.kafka] ++
  (if ans.outq_len_before_flush > 0 then
    [Call.msg_event Message.messages_still_in_flight] else []) ++
  [Call.rd_kafka_flush self.kafka timeout] ++
  (if ans.rd_kafka_flush ≠ RD_KAFKA_RESP_ERR_NO_ERROR then
    [Call.rd_kafka_outq_len self.kafka, Call.msg_event Message.error_flushing] else []) ++
  [Call.rd_kafka_outq_len self.kafka] ++
  (if ans.outq_len_after_flush ≠ 0 then
    [Call.msg_event Message.timeout_waiting_for_queue] else [])

/-- The function `_purge_remaining_messages(self)`: the calls it makes. -/
def _purge_remaining_messages (self : KafkaDestDriver) (ans : DeinitAnswers) : List Call :=
  [Call.rd_kafka_purge self.kafka (RD_KAFKA_PURGE_F_QUEUE ||| RD_KAFKA_PURGE_F_INFLIGHT),
    Call.rd_kafka_poll self.kafka 0,
    Call.rd_kafka_outq_len self.kafka] ++
  (if ans.outq_len_after_purge ≠ 0 then
    [Call.msg_event Message.failed_to_empty_queues] else [])

/-- The function `kafka_dd_deinit(s)`: the value returned and the calls made.  No
field of the driver is written. -/
def kafka_dd_deinit (self : KafkaDestDriver) (ans : DeinitAnswers) : Bool × List Call :=
  (ans.log_threaded_dest_driver_deinit_method,
    _flush_inflight_messages self ans ++ _purge_remaining_messages self ans ++
      [Call.log_threaded_dest_driver_deinit_method])

/-! ## Initialisation -/

/-- The function `_init_template_topic_name(self)`: the value returned, the
driver afterwards and the calls made (`none` when the assertion of
`_construct_topic` fails). -/
def _init_template_topic_name (self : KafkaDestDriver) (ans : InitAnswers) :
    Option (Bool × KafkaDestDriver × List Call) :=
  match self.fallback_topic_name with
  | none =>
    some (false, self, [Call.msg_event Message.topic_name_is_a_template,
      Call.msg_event Message.fallback_topic_required])
  | some fallback_topic_name =>
    match _construct_topic self fallback_topic_name ans.rd_kafka_topic_new with
    | none => none
    | some (none, calls) =>
      some (false, self, [Call.msg_event Message.topic_name_is_a_template] ++ calls ++
        [Call.msg_event Message.error_constructing_fallback_topic])
    | some (some fallback_topic, calls) =>
      let topics := g_hash_table_insert g_hash_table_new_full fallback_topic_name fallback_topic
      some (true, { self with topics := some topics },
        [Call.msg_event Message.topic_name_is_a_template] ++ calls)

/-- The function `_topic_name_is_a_template(self)`:
`strchr(self->topic_name->template, '$') != NULL`. -/
def _topic_name_is_a_template (topic_name : LogTemplate) : Bool :=
  topic_name.template.contains '$'

/-- The function `_init_literal_topic_name(self)`: `self->topic` is assigned the
result of `_construct_topic`, `NULL` included. -/
def _init_literal_topic_name (self : KafkaDestDriver) (topic_name : LogTemplate)
    (ans : InitAnswers) : Option (Bool × KafkaDestDriver × List Call) :=
  match _construct_topic self topic_name.template ans.rd_kafka_topic_new with
  | none => none
  | some (none, calls) =>
    some (false, { self with topic := none },
      calls ++ [Call.msg_event Message.error_constructing_kafka_topic])
  | some (some topic, calls) => some (true, { self with topic := some topic }, calls)

/-- The function `_init_topic_name(self)`, with `topic_name` the (non-NULL)
template `self->topic_name`. -/
def _init_topic_name (self : KafkaDestDriver) (topic_name : LogTemplate) (ans : InitAnswers) :
    Option (Bool × KafkaDestDriver × List Call) :=
  if _topic_name_is_a_template topic_name then _init_template_topic_name self ans
  else _init_literal_topic_name self topic_name ans

/-- The text of the default message template installed by `kafka_dd_init`. -/
def default_message_template : LogTemplate :=
  { template := "$ISODATE $HOST $MSGHDR$MSG".toList }

/-- The statements of `kafka_dd_init` from `if (!_init_topic_name(self))` to the
end, run once the client exists. -/
def kafka_dd_init_topic_and_rest (self : KafkaDestDriver) (topic_name : LogTemplate)
    (ans : InitAnswers) : Option (Bool × KafkaDestDriver × List Call) :=
  match _init_topic_name self topic_name ans with
  | none => none
  | some (false, self1, calls) => some (false, self1, calls)
  | some (true, self1, calls) =>
    if !ans.log_threaded_dest_driver_init_method then
      some (false, self1, calls ++ [Call.log_threaded_dest_driver_init_method])
    else
      some (true,
        (if self1.message = none then { self1 with message := some default_message_template }
          else self1),
        calls ++ [Call.log_threaded_dest_driver_init_method,
          Call.msg_event Message.destination_initialized])

/-- The function `kafka_dd_init(s)`: the value returned, the driver afterwards
and the calls made (`none` when an assertion fails). -/
def kafka_dd_init (self : KafkaDestDriver) (ans : InitAnswers) :
    Option (Bool × KafkaDestDriver × List Call) :=
  match self.topic_name with
  | none => some (false, self, [Call.msg_event Message.topic_argument_required])
  | some topic_name =>
    match self.kafka with
    | some _ => kafka_dd_init_topic_and_rest self topic_name ans
    | none =>
      match _construct_client self ans with
      | (none, calls) =>
        some (false, self, calls ++ [Call.msg_event Message.error_constructing_connection])
      | (some client, calls) =>
        match kafka_dd_init_topic_and_rest { self with kafka := some client } topic_name ans with
        | none => none
        | some (ret, self1, calls1) => some (ret, self1, calls ++ calls1)

/-! ## Sequences of operations on one driver -/

/-- A sequence of `kafka_dd_query_insert_topic` calls, each given as the name
asked for and what `rd_kafka_topic_new` returns if it is called: the driver
afterwards and all calls made. -/
def resolve_all : KafkaDestDriver → List (CStr × Option rd_kafka_topic_t) →
    Option (KafkaDestDriver × List Call)
  | self, [] => some (self, [])
  | self, (name, topic_new) :: rest =>
    match kafka_dd_query_insert_topic self name topic_new with
    | none => none
    | some (_, self1, calls) =>
      match resolve_all self1 rest with
      | none => none
      | some (self2, calls2) => some (self2, calls ++ calls2)

/-- One operation of the driver's life between `kafka_dd_new` and
`kafka_dd_free`, with the answers of the environment. -/
inductive LifecycleOp where
  | init (ans : InitAnswers)
  | query_insert_topic (name : CStr) (topic_new : Option rd_kafka_topic_t)
  | deinit (ans : DeinitAnswers)

/-- The effect of one lifecycle operation: the driver afterwards and the calls
made. -/
def LifecycleOp.step (self : KafkaDestDriver) : LifecycleOp →
    Option (KafkaDestDriver × List Call)
  | .init ans =>
    match kafka_dd_init self ans with
    | none => none
    | some (_, self1, calls) => some (self1, calls)
  | .query_insert_topic name topic_new =>
    match kafka_dd_query_insert_topic self name topic_new with
    | none => none
    | some (_, self1, calls) => some (self1, calls)
  | .deinit ans => some (self, (kafka_dd_deinit self ans).2)

/-- A sequence of lifecycle operations: the driver afterwards and all calls
made. -/
def run_lifecycle : KafkaDestDriver → List LifecycleOp → Option (KafkaDestDriver × List Call)
  | self, [] => some (self, [])
  | self, op :: rest =>
    match op.step self with
    | none => none
    | some (self1, calls) =>
      match run_lifecycle self1 rest with
      | none => none
      | some (self2, calls2) => some (self2, calls ++ calls2)

/-- The handles that the calls construct for `name`: the non-NULL results of the
`rd_kafka_topic_new` calls made with that name. -/
def handles_constructed_for (name : CStr) : List Call → List rd_kafka_topic_t
  | [] => []
  | Call.rd_kafka_topic_new _ n (some h) :: rest =>
    if n = name then h :: handles_constructed_for name rest
    else handles_constructed_for name rest
  | _ :: rest => handles_constructed_for name rest

/-- Whether the driver holds the handle: it is the fixed topic `self->topic` or a
value of the table `self->topics`. -/
def owns_handle (self : KafkaDestDriver) (h : rd_kafka_topic_t) : Bool :=
  self.topic == some h ||
    (match self.topics with
     | none => false
     | some topics => topics.any (fun e => e.2 == h))

/-- Whether a call is one of the three drain calls `rd_kafka_flush`,
`rd_kafka_purge`, `rd_kafka_poll`. -/
def is_drain_call : Call → Bool
  | Call.rd_kafka_flush _ _ => true
  | Call.rd_kafka_purge _ _ => true
  | Call.rd_kafka_poll _ _ => true
  | _ => false

/-- Whether a call is a call of `rd_kafka_topic_new`. -/
def is_topic_new_call : Call → Bool
  | Call.rd_kafka_topic_new _ _ _ => true
  | _ => false

/-! ## Concrete drivers and answers used to instantiate the theorems -/

/-- A running driver with a templated topic: client `7`, cache holding the
fallback topic `fallback` under handle `1`. -/
def running_template_driver : KafkaDestDriver :=
  { kafka_dd_new with
    topic_name := some { template := "events-$HOST".toList },
    fallback_topic_name := some "fallback".toList,
    kafka := some 7,
    topics := some [("fallback".toList, 1)] }

/-- Setter calls configuring the literal topic `events`. -/
def literal_setters : List Setter :=
  [Setter.set_topic (some { template := "events".toList }),
    Setter.set_bootstrap_servers (some "localhost:9092".toList)]

/-- A configured, not yet initialised driver with the literal topic `events`. -/
def literal_driver : KafkaDestDriver := configured literal_setters

/-- Setter calls configuring the templated topic `events-$HOST` with the fallback
topic `fallback`. -/
def template_setters : List Setter :=
  [Setter.set_topic (some { template := "events-$HOST".toList }),
    Setter.set_fallback_topic (some "fallback".toList),
    Setter.set_bootstrap_servers (some "localhost:9092".toList)]

/-- A configured, not yet initialised driver with the templated topic
`events-$HOST` and the fallback topic `fallback`. -/
def template_driver : KafkaDestDriver := configured template_setters

/-- Setter calls configuring the templated topic `events-$HOST` without any
fallback topic. -/
def template_setters_without_fallback : List Setter :=
  [Setter.set_topic (some { template := "events-$HOST".toList }),
    Setter.set_bootstrap_servers (some "localhost:9092".toList)]

/-- The result of `kafka_dd_init` when it returns (it always does, see
`kafka_dd_init_returns`). -/
def init_result (self : KafkaDestDriver) (ans : InitAnswers) :
    Bool × KafkaDestDriver × List Call :=
  (kafka_dd_init self ans).getD (false, self, [])

/-- Answers of an environment in which every call of `kafka_dd_init` succeeds:
the client is `7` and `rd_kafka_topic_new` returns the handle `h`. -/
def init_answers_ok (h : rd_kafka_topic_t) : InitAnswers :=
  { rd_kafka_conf_set := fun _ _ => 0,
    rd_kafka_new := some 7,
    rd_kafka_topic_new := some h,
    log_threaded_dest_driver_init_method := true }

/-- Answers of an environment in which the queue is empty throughout the drain
on shutdown. -/
def deinit_answers_idle : DeinitAnswers :=
  { cfg_is_shutting_down := true, outq_len_before_flush := 0,
    rd_kafka_flush := RD_KAFKA_RESP_ERR_NO_ERROR, outq_len_on_flush_error := 0,
    outq_len_after_flush := 0, outq_len_after_purge := 0,
    log_threaded_dest_driver_deinit_method := true }

/-! ## Configuration properties as applied to the client -/

/-- The name and value of every `rd_kafka_conf_set` call among the calls, in the
order in which the calls are made. -/
def conf_set_calls : List Call → List (CStr × Option CStr)
  | [] => []
  | Call.rd_kafka_conf_set name value :: rest => (name, value) :: conf_set_calls rest
  | _ :: rest => conf_set_calls rest

/-- The property lists handed to `kafka_dd_merge_config` by the setter calls,
concatenated in call order. -/
def merged_properties : List Setter → List KafkaProperty
  | [] => []
  | Setter.merge_config props :: rest => props ++ merged_properties rest
  | _ :: rest => merged_properties rest

/-- The value that a sequence of property settings leaves in effect for `key`
when every setting replaces the earlier ones of the same name (last write
wins), which is what the specification assumes of the client configuration
object; `none` when `key` is never set. -/
def value_in_effect (key : CStr) : List (CStr × Option CStr) → Option (Option CStr)
  | [] => none
  | (name, value) :: rest =>
    match value_in_effect key rest with
    | some later => some later
    | none => if name = key then some value else none

/-- Setter calls with a bootstrap address and two `kafka_dd_merge_config` calls,
which set `topic.partitioner` twice and `acks` once. -/
def property_setters : List Setter :=
  [Setter.set_bootstrap_servers (some "localhost:9092".toList),
    Setter.merge_config
      [{ name := "topic.partitioner".toList, value := "consistent".toList }],
    Setter.merge_config
      [{ name := "acks".toList, value := "all".toList },
        { name := "topic.partitioner".toList, value := "random".toList }]]

/-! ## Lemmas on the validator -/

theorem valid_topic_char_iff (c : Char) : valid_topic_char c = true ↔ in_topic_charset c := by
  unfold valid_topic_char in_topic_charset
  simp only [Bool.or_eq_true, Bool.and_eq_true, decide_eq_true_eq, beq_iff_eq]
  tauto

theorem contains_valid_pattern_iff (name : CStr) :
    _contains_valid_pattern name = true ↔ ∀ c ∈ name, valid_topic_char c = true := by
  induction name with
  | nil => simp [_contains_valid_pattern]
  | cons p rest ih =>
    cases hp : valid_topic_char p <;> simp [_contains_valid_pattern, hp, ih]

theorem contains_valid_pattern_eq_false_iff (name : CStr) :
    _contains_valid_pattern name = false ↔ ∃ c ∈ name, valid_topic_char c = false := by
  rw [← Bool.not_eq_true, contains_valid_pattern_iff]
  simp

theorem g_strcmp0_eq_zero_iff (a b : CStr) : g_strcmp0 a b = 0 ↔ a = b := by
  unfold g_strcmp0
  by_cases h : a = b
  · simp [h]
  · simp only [h, if_false, iff_false]
    split <;> decide

theorem gint_of_gsize_of_lt {n : Nat} (h : n < 2 ^ 31) : gint_of_gsize n = (n : Int) := by
  have h32 : n % 2 ^ 32 = n := Nat.mod_eq_of_lt (by omega)
  unfold gint_of_gsize
  rw [h32, if_pos h]

/-- The validator's result spelled out for a name whose length fits a `gint`:
the four checks in the order in which the code makes them. -/
theorem validate_of_fits (name : CStr) (hfit : name.length < 2 ^ 31) :
    kafka_dd_validate_topic_name name =
      if name = [] then (false, some TOPIC_LENGTH_ZERO)
      else if name = ['.'] ∨ name = ['.', '.'] then (false, some TOPIC_DOT_TWO_DOTS)
      else if 249 < name.length then (false, some TOPIC_EXCEEDS_MAX_LENGTH)
      else if ∃ c ∈ name, valid_topic_char c = false then (false, some TOPIC_INVALID_PATTERN)
      else (true, none) := by
  have hlen : gint_of_gsize (strlen name) = (name.length : Int) := gint_of_gsize_of_lt hfit
  have h0 : ((name.length : Int) = 0) = (name = []) := by
    simp [List.length_eq_zero]
  have h249 : ((name.length : Int) > 249) = (249 < name.length) := by
    apply propext; constructor <;> intro h <;> omega
  have hpat : (!(_contains_valid_pattern name)) = true ↔
      ∃ c ∈ name, valid_topic_char c = false := by
    rw [Bool.not_eq_true', contains_valid_pattern_eq_false_iff]
  simp only [kafka_dd_validate_topic_name, hlen, h0, h249, Bool.or_eq_true, decide_eq_true_eq,
    g_strcmp0_eq_zero_iff, hpat]

/-- The validator accepts as soon as the narrowed length is neither `0` nor above
`249`, the name is not a dot name and the pattern loop succeeds. -/
theorem validate_accepts_of_checks (name : CStr)
    (h0 : gint_of_gsize (strlen name) ≠ 0) (hd1 : name ≠ ['.']) (hd2 : name ≠ ['.', '.'])
    (h249 : ¬ gint_of_gsize (strlen name) > 249) (hpat : _contains_valid_pattern name = true) :
    kafka_dd_validate_topic_name name = (true, none) := by
  simp [kafka_dd_validate_topic_name, h0, h249, hpat, g_strcmp0_eq_zero_iff, hd1, hd2]

theorem contains_valid_pattern_replicate (n : Nat) (c : Char) (hc : valid_topic_char c = true) :
    _contains_valid_pattern (List.replicate n c) = true := by
  rw [contains_valid_pattern_iff]
  intro d hd
  rw [List.eq_of_mem_replicate hd]; exact hc

/-! ## The validator: claims C1 and C2 -/

/-- C1 (evaluation at the failing input): a name of 2147483648 characters `a`
is longer than 249 characters, yet the validator returns `TRUE` and sets no
error, because `strlen` narrowed to `gint` is negative. -/
theorem validate_accepts_name_of_2147483648_chars :
    249 < (List.replicate 2147483648 'a').length ∧
      gint_of_gsize (strlen (List.replicate 2147483648 'a')) = -2147483648 ∧
      kafka_dd_validate_topic_name (List.replicate 2147483648 'a') = (true, none) := by
  have hlen : strlen (List.replicate 2147483648 'a') = 2147483648 := by
    unfold strlen; exact List.length_replicate _ _
  have hg : gint_of_gsize 2147483648 = -2147483648 := by decide
  refine ⟨by rw [List.length_replicate]; decide, by rw [hlen, hg], ?_⟩
  apply validate_accepts_of_checks
  · rw [hlen, hg]; decide
  · intro h
    have := congrArg List.length h
    rw [List.length_replicate] at this
    exact absurd this (by decide)
  · intro h
    have := congrArg List.length h
    rw [List.length_replicate] at this
    exact absurd this (by decide)
  · rw [hlen, hg]; decide
  · exact contains_valid_pattern_replicate _ _ (by decide)

/-- Within the range of `gint` the validator is exact: for every name shorter
than `2^31` characters it returns `TRUE` exactly when the length is between 1 and
249, every character is in `[A-Za-z0-9_.-]` and the name is neither `.` nor
`..`. -/
theorem validate_accepts_iff_of_fits (name : CStr) (hfit : name.length < 2 ^ 31) :
    (kafka_dd_validate_topic_name name).1 = true ↔
      (1 ≤ name.length ∧ name.length ≤ 249) ∧ (∀ c ∈ name, in_topic_charset c) ∧
        name ≠ ['.'] ∧ name ≠ ['.', '.'] := by
  rw [validate_of_fits name hfit]
  have hne : name = [] ↔ ¬ 1 ≤ name.length := by
    rw [← List.length_eq_zero]; omega
  have hall : (∀ c ∈ name, in_topic_charset c) ↔ ¬ ∃ c ∈ name, valid_topic_char c = false := by
    simp only [← valid_topic_char_iff]
    simp
  rw [hall]
  by_cases h1 : name = []
  · simp [h1]
  · by_cases h2 : name = ['.'] ∨ name = ['.', '.']
    · rw [if_neg h1, if_pos h2]
      simp only [Bool.false_eq_true, false_iff]
      tauto
    · rw [if_neg h1, if_neg h2]
      have h1' : 1 ≤ name.length := by
        by_contra hc; exact h1 (hne.mpr hc)
      by_cases h3 : 249 < name.length
      · rw [if_pos h3]
        simp only [Bool.false_eq_true, false_iff]
        omega
      · rw [if_neg h3]
        by_cases h4 : ∃ c ∈ name, valid_topic_char c = false
        · rw [if_pos h4]
          simp only [Bool.false_eq_true, false_iff]
          exact fun hh => hh.2.1 h4
        · rw [if_neg h4]
          simp only [true_iff]
          exact ⟨⟨h1', by omega⟩, h4, fun h => h2 (Or.inl h), fun h => h2 (Or.inr h)⟩

/-- The exactness of the validator instantiated at the name `events`. -/
theorem validate_accepts_iff_of_fits_witness :
    "events".toList.length < 2 ^ 31 ∧
    ((kafka_dd_validate_topic_name "events".toList).1 = true ↔
      (1 ≤ "events".toList.length ∧ "events".toList.length ≤ 249) ∧
        (∀ c ∈ "events".toList, in_topic_charset c) ∧
        "events".toList ≠ ['.'] ∧ "events".toList ≠ ['.', '.']) :=
  ⟨by decide, validate_accepts_iff_of_fits "events".toList (by decide)⟩

/-- A name longer than 249 characters (and short enough for `gint`) is rejected
with `TOPIC_EXCEEDS_MAX_LENGTH`, whatever its characters are. -/
theorem validate_too_long (name : CStr) (hfit : name.length < 2 ^ 31) (h : 249 < name.length) :
    kafka_dd_validate_topic_name name = (false, some TOPIC_EXCEEDS_MAX_LENGTH) := by
  rw [validate_of_fits name hfit]
  have h1 : name ≠ [] := by
    intro hc; rw [hc] at h; simp at h
  have h2 : ¬ (name = ['.'] ∨ name = ['.', '.']) := by
    rintro (hc | hc) <;> rw [hc] at h <;> simp at h
  rw [if_neg h1, if_neg h2, if_pos h]

/-- C2 (counterexample): the name made of 250 characters `!` is rejected and
contains a character outside `[A-Za-z0-9_.-]`, but the reason reported is
`TOPIC_EXCEEDS_MAX_LENGTH`, not `TOPIC_INVALID_PATTERN`. -/
theorem reason_of_250_bangs_is_not_invalid_pattern :
    (kafka_dd_validate_topic_name (List.replicate 250 '!')).1 = false ∧
      (∃ c ∈ List.replicate 250 '!', ¬ in_topic_charset c) ∧
      (kafka_dd_validate_topic_name (List.replicate 250 '!')).2 = some TOPIC_EXCEEDS_MAX_LENGTH ∧
      (kafka_dd_validate_topic_name (List.replicate 250 '!')).2 ≠ some TOPIC_INVALID_PATTERN := by
  have hv := validate_too_long (List.replicate 250 '!')
    (by rw [List.length_replicate]; decide) (by rw [List.length_replicate]; decide)
  rw [hv]
  refine ⟨rfl, ⟨'!', ?_, by decide⟩, rfl, by decide⟩
  exact List.mem_replicate.mpr ⟨by decide, rfl⟩

/-- C2 (amended): for every name shorter than `2^31` characters that the
validator rejects, a reason code is reported, and it is that of the first check
that fails in the order empty, dot names, too long, invalid character:
`TOPIC_LENGTH_ZERO` exactly when the name is empty, `TOPIC_DOT_TWO_DOTS` exactly
when it is `.` or `..`, `TOPIC_EXCEEDS_MAX_LENGTH` exactly when it is longer than
249, and `TOPIC_INVALID_PATTERN` exactly when it is at most 249 long and has a
character outside `[A-Za-z0-9_.-]`. -/
theorem validate_reason_of_fits (name : CStr) (hfit : name.length < 2 ^ 31)
    (hrej : (kafka_dd_validate_topic_name name).1 = false) :
    (kafka_dd_validate_topic_name name).2 ≠ none ∧
      ((kafka_dd_validate_topic_name name).2 = some TOPIC_LENGTH_ZERO ↔ name = []) ∧
      ((kafka_dd_validate_topic_name name).2 = some TOPIC_DOT_TWO_DOTS ↔
        (name = ['.'] ∨ name = ['.', '.'])) ∧
      ((kafka_dd_validate_topic_name name).2 = some TOPIC_EXCEEDS_MAX_LENGTH ↔
        249 < name.length) ∧
      ((kafka_dd_validate_topic_name name).2 = some TOPIC_INVALID_PATTERN ↔
        (name.length ≤ 249 ∧ ∃ c ∈ name, ¬ in_topic_charset c)) := by
  have hex : (∃ c ∈ name, ¬ in_topic_charset c) ↔ ∃ c ∈ name, valid_topic_char c = false := by
    simp only [← valid_topic_char_iff, Bool.not_eq_true]
  rw [hex]
  rw [validate_of_fits name hfit] at hrej ⊢
  by_cases h1 : name = []
  · subst h1; simp
  · rw [if_neg h1] at hrej ⊢
    by_cases h2 : name = ['.'] ∨ name = ['.', '.']
    · rw [if_pos h2]
      have hlen : name.length ≤ 2 := by
        rcases h2 with h | h <;> rw [h] <;> simp
      have hno : ¬ ∃ c ∈ name, valid_topic_char c = false := by
        rcases h2 with h | h <;> rw [h] <;> decide
      refine ⟨by simp, by simp [h1], by simp [h2], ?_, ?_⟩
      · simp only [Option.some.injEq, reduceCtorEq, false_iff]; omega
      · simp only [Option.some.injEq, reduceCtorEq, false_iff]
        exact fun hc => hno hc.2
    · rw [if_neg h2] at hrej ⊢
      by_cases h3 : 249 < name.length
      · rw [if_pos h3]
        refine ⟨by simp, by simp [h1], by simp [h2], by simp [h3], ?_⟩
        simp only [Option.some.injEq, reduceCtorEq, false_iff]
        intro hc; omega
      · rw [if_neg h3] at hrej ⊢
        by_cases h4 : ∃ c ∈ name, valid_topic_char c = false
        · rw [if_pos h4]
          refine ⟨by simp, by simp [h1], by simp [h2], by simp [h3], ?_⟩
          simp only [true_iff]
          exact ⟨by omega, h4⟩
        · rw [if_neg h4] at hrej
          simp at hrej

/-- Instance of C2 (amended) at the name `a b`: it is rejected with
`TOPIC_INVALID_PATTERN`, being at most 249 long with a character outside the set. -/
theorem validate_reason_of_fits_witness :
    "a b".toList.length < 2 ^ 31 ∧ (kafka_dd_validate_topic_name "a b".toList).1 = false ∧
      (kafka_dd_validate_topic_name "a b".toList).2 = some TOPIC_INVALID_PATTERN ∧
      ("a b".toList.length ≤ 249 ∧ ∃ c ∈ "a b".toList, ¬ in_topic_charset c) :=
  ⟨by decide, by decide, by decide,
    (validate_reason_of_fits "a b".toList (by decide) (by decide)).2.2.2.2.mp (by decide)⟩

/-! ## The delivery report callback: claim C3 -/

/-- C3: for every driver, error code and record `msg` handed to
`_kafka_delivery_report_cb`: when the error is `RD_KAFKA_RESP_ERR_NO_ERROR`,
`log_msg_unref(msg)` is called exactly once and `log_queue_push_head` is not
called at all; when the error is anything else, `log_queue_push_head(msg)` is
called exactly once, `log_msg_unref` is not called at all and the worker wake
signal is sent; in both cases the record is released or requeued, exactly one
of the two. -/
theorem delivery_report_releases_or_requeues (self : KafkaDestDriver)
    (err : rd_kafka_resp_err_t) (msg : LogMessage) :
    (err = RD_KAFKA_RESP_ERR_NO_ERROR →
      (_kafka_delivery_report_cb self err msg).count (Call.log_msg_unref msg) = 1 ∧
      ∀ m, Call.log_queue_push_head m ∉ _kafka_delivery_report_cb self err msg) ∧
    (err ≠ RD_KAFKA_RESP_ERR_NO_ERROR →
      (_kafka_delivery_report_cb self err msg).count (Call.log_queue_push_head msg) = 1 ∧
      (∀ m, Call.log_msg_unref m ∉ _kafka_delivery_report_cb self err msg) ∧
      Call.log_threaded_dest_worker_wakeup_when_suspended ∈
        _kafka_delivery_report_cb self err msg) ∧
    (_kafka_delivery_report_cb self err msg).count (Call.log_msg_unref msg) +
      (_kafka_delivery_report_cb self err msg).count (Call.log_queue_push_head msg) = 1 := by
  by_cases h : err = RD_KAFKA_RESP_ERR_NO_ERROR
  · simp [_kafka_delivery_report_cb, h, List.count_cons]
  · simp [_kafka_delivery_report_cb, h, List.count_cons]

/-- Instance of C3 at record 42: with error 0 it is released once and not
requeued, with error -1 it is requeued once, not released, and the worker is woken. -/
theorem delivery_report_releases_or_requeues_witness :
    ((_kafka_delivery_report_cb kafka_dd_new 0 42).count (Call.log_msg_unref 42) = 1 ∧
      ∀ m, Call.log_queue_push_head m ∉ _kafka_delivery_report_cb kafka_dd_new 0 42) ∧
    ((_kafka_delivery_report_cb kafka_dd_new (-1) 42).count (Call.log_queue_push_head 42) = 1 ∧
      (∀ m, Call.log_msg_unref m ∉ _kafka_delivery_report_cb kafka_dd_new (-1) 42) ∧
      Call.log_threaded_dest_worker_wakeup_when_suspended ∈
        _kafka_delivery_report_cb kafka_dd_new (-1) 42) :=
  ⟨(delivery_report_releases_or_requeues kafka_dd_new 0 42).1 (by decide),
    (delivery_report_releases_or_requeues kafka_dd_new (-1) 42).2.1 (by decide)⟩

/-! ## Lemmas on the topic cache -/

theorem lookup_insert_self (t : GHashTable) (k : CStr) (v : rd_kafka_topic_t) :
    g_hash_table_lookup (g_hash_table_insert t k v) k = some v := by
  induction t with
  | nil => simp [g_hash_table_insert, g_hash_table_lookup]
  | cons e rest ih =>
    obtain ⟨k1, v1⟩ := e
    by_cases h : k1 = k
    · simp [g_hash_table_insert, g_hash_table_lookup, h]
    · simp [g_hash_table_insert, g_hash_table_lookup, h, ih]

theorem lookup_insert_other (t : GHashTable) (k k1 : CStr) (v : rd_kafka_topic_t)
    (hne : k ≠ k1) :
    g_hash_table_lookup (g_hash_table_insert t k v) k1 = g_hash_table_lookup t k1 := by
  induction t with
  | nil => simp [g_hash_table_insert, g_hash_table_lookup, hne]
  | cons e rest ih =>
    obtain ⟨k2, v2⟩ := e
    by_cases h : k2 = k
    · subst h
      simp [g_hash_table_insert, g_hash_table_lookup, hne]
    · by_cases h1 : k2 = k1
      · subst h1
        simp [g_hash_table_insert, g_hash_table_lookup, h]
      · simp [g_hash_table_insert, g_hash_table_lookup, h, h1, ih]

theorem handles_constructed_for_append (name : CStr) (a b : List Call) :
    handles_constructed_for name (a ++ b) =
      handles_constructed_for name a ++ handles_constructed_for name b := by
  induction a with
  | nil => rfl
  | cons c rest ih =>
    cases c with
    | rd_kafka_topic_new rk n result =>
      cases result with
      | none => simpa [handles_constructed_for] using ih
      | some h =>
        by_cases hn : n = name
        · simp [handles_constructed_for, hn, ih]
        · simp [handles_constructed_for, hn, ih]
    | _ => simpa [handles_constructed_for] using ih

/-- The three ways in which `kafka_dd_query_insert_topic` returns: a hit, a miss
on which nothing is constructed (invalid name, or the broker returns `NULL`),
and a miss on which the new handle is inserted. -/
theorem query_insert_topic_cases (self : KafkaDestDriver) (name : CStr)
    (topic_new : Option rd_kafka_topic_t)
    (r : Option rd_kafka_topic_t × KafkaDestDriver × List Call)
    (hr : kafka_dd_query_insert_topic self name topic_new = some r) :
    ∃ topics, self.topics = some topics ∧
      ((∃ h, g_hash_table_lookup topics name = some h ∧ r = (some h, self, [])) ∨
       (g_hash_table_lookup topics name = none ∧
          (∃ calls, r = (none, self, calls) ∧ ∀ n, handles_constructed_for n calls = []) ∧
          ((kafka_dd_validate_topic_name name).1 = false ∨ topic_new = none)) ∨
       (g_hash_table_lookup topics name = none ∧
          (kafka_dd_validate_topic_name name).1 = true ∧
          ∃ h rk, topic_new = some h ∧ self.kafka = some rk ∧
            r = (some h, { self with topics := some (g_hash_table_insert topics name h) },
              [Call.rd_kafka_topic_new rk name (some h)]))) := by
  unfold kafka_dd_query_insert_topic at hr
  cases ht : self.topics with
  | none => simp [ht] at hr
  | some topics =>
    refine ⟨topics, rfl, ?_⟩
    simp only [ht] at hr
    cases hl : g_hash_table_lookup topics name with
    | some h =>
      simp only [hl, Option.some.injEq] at hr
      exact Or.inl ⟨h, rfl, hr.symm⟩
    | none =>
      simp only [hl] at hr
      unfold _construct_topic at hr
      cases hk : self.kafka with
      | none => simp [hk] at hr
      | some rk =>
        simp only [hk] at hr
        cases hv : (kafka_dd_validate_topic_name name).1 with
        | false =>
          simp only [hv, Bool.false_eq_true, if_false, Option.some.injEq] at hr
          refine Or.inr (Or.inl ⟨rfl, ⟨_, hr.symm, ?_⟩, Or.inl rfl⟩)
          intro n; rfl
        | true =>
          simp only [hv, if_true] at hr
          cases htn : topic_new with
          | none =>
            simp only [htn, Option.some.injEq] at hr
            refine Or.inr (Or.inl ⟨rfl, ⟨_, hr.symm, ?_⟩, Or.inr rfl⟩)
            intro n; rfl
          | some h =>
            simp only [htn, Option.some.injEq] at hr
            exact Or.inr (Or.inr ⟨rfl, rfl, h, rk, rfl, rfl, hr.symm⟩)

/-- A hit returns the cached handle, makes no call and leaves the driver as it
was. -/
theorem query_insert_topic_hit (self : KafkaDestDriver) (topics : GHashTable) (name : CStr)
    (h : rd_kafka_topic_t) (topic_new : Option rd_kafka_topic_t)
    (ht : self.topics = some topics) (hl : g_hash_table_lookup topics name = some h) :
    kafka_dd_query_insert_topic self name topic_new = some (some h, self, []) := by
  simp [kafka_dd_query_insert_topic, ht, hl]

/-- With a client and a cache present the function returns (no assertion fails). -/
theorem query_insert_topic_returns (self : KafkaDestDriver) (name : CStr)
    (topic_new : Option rd_kafka_topic_t) (hk : self.kafka ≠ none) (ht : self.topics ≠ none) :
    ∃ r, kafka_dd_query_insert_topic self name topic_new = some r ∧
      r.2.1.kafka ≠ none ∧ r.2.1.topics ≠ none := by
  obtain ⟨rk, hk⟩ := Option.ne_none_iff_exists'.mp hk
  obtain ⟨topics, ht⟩ := Option.ne_none_iff_exists'.mp ht
  unfold kafka_dd_query_insert_topic _construct_topic
  simp only [ht, hk]
  cases hl : g_hash_table_lookup topics name with
  | some h => simp [hk, ht]
  | none =>
    cases hv : (kafka_dd_validate_topic_name name).1 with
    | false => simp [hk, ht]
    | true =>
      cases htn : topic_new with
      | none => simp [hk, ht]
      | some h => simp [hk]

/-- A name that is cached stays cached, with the same handle, through any
sequence of resolve calls, and no handle is constructed for it. -/
theorem resolve_all_of_cached (reqs : List (CStr × Option rd_kafka_topic_t))
    (self : KafkaDestDriver) (topics : GHashTable) (name : CStr) (h : rd_kafka_topic_t)
    (ht : self.topics = some topics) (hl : g_hash_table_lookup topics name = some h)
    (self1 : KafkaDestDriver) (calls : List Call)
    (hrun : resolve_all self reqs = some (self1, calls)) :
    handles_constructed_for name calls = [] ∧
      ∃ topics1, self1.topics = some topics1 ∧ g_hash_table_lookup topics1 name = some h := by
  induction reqs generalizing self topics calls with
  | nil =>
    simp only [resolve_all, Option.some.injEq, Prod.mk.injEq] at hrun
    obtain ⟨rfl, rfl⟩ := hrun
    exact ⟨rfl, topics, ht, hl⟩
  | cons req rest ih =>
    obtain ⟨n, tn⟩ := req
    simp only [resolve_all] at hrun
    cases hq : kafka_dd_query_insert_topic self n tn with
    | none => simp [hq] at hrun
    | some r =>
      obtain ⟨ret, selfA, callsA⟩ := r
      simp only [hq] at hrun
      cases hrest : resolve_all selfA rest with
      | none => simp [hrest] at hrun
      | some r2 =>
        obtain ⟨selfB, callsB⟩ := r2
        simp only [hrest, Option.some.injEq, Prod.mk.injEq] at hrun
        obtain ⟨rfl, rfl⟩ := hrun
        rw [handles_constructed_for_append]
        obtain ⟨topics0, ht0, hcase⟩ := query_insert_topic_cases self n tn _ hq
        rw [ht] at ht0
        cases ht0
        rcases hcase with ⟨h0, _, hr⟩ | ⟨_, ⟨c, hr, hc⟩, _⟩ | ⟨hmiss, _, h0, rk, _, _, hr⟩
        · simp only [Prod.mk.injEq] at hr
          obtain ⟨_, rfl, rfl⟩ := hr
          obtain ⟨e1, e2⟩ := ih _ _ ht hl _ hrest
          exact ⟨by simp [handles_constructed_for, e1], e2⟩
        · simp only [Prod.mk.injEq] at hr
          obtain ⟨_, rfl, rfl⟩ := hr
          obtain ⟨e1, e2⟩ := ih _ _ ht hl _ hrest
          exact ⟨by simp [hc name, e1], e2⟩
        · simp only [Prod.mk.injEq] at hr
          obtain ⟨_, rfl, rfl⟩ := hr
          have hne : n ≠ name := by
            intro he; rw [he, hl] at hmiss; cases hmiss
          obtain ⟨e1, e2⟩ := ih _ (g_hash_table_insert topics n h0) rfl
            (by rw [lookup_insert_other _ _ _ _ hne]; exact hl) _ hrest
          exact ⟨by simp [handles_constructed_for, hne, e1], e2⟩

/-- Any sequence of resolve calls constructs at most one handle for a name. -/
theorem resolve_all_constructs_at_most_one (reqs : List (CStr × Option rd_kafka_topic_t))
    (self self1 : KafkaDestDriver) (calls : List Call) (name : CStr)
    (hrun : resolve_all self reqs = some (self1, calls)) :
    (handles_constructed_for name calls).length ≤ 1 := by
  induction reqs generalizing self calls with
  | nil =>
    simp only [resolve_all, Option.some.injEq, Prod.mk.injEq] at hrun
    obtain ⟨_, rfl⟩ := hrun
    simp [handles_constructed_for]
  | cons req rest ih =>
    obtain ⟨n, tn⟩ := req
    simp only [resolve_all] at hrun
    cases hq : kafka_dd_query_insert_topic self n tn with
    | none => simp [hq] at hrun
    | some r =>
      obtain ⟨ret, selfA, callsA⟩ := r
      simp only [hq] at hrun
      cases hrest : resolve_all selfA rest with
      | none => simp [hrest] at hrun
      | some r2 =>
        obtain ⟨selfB, callsB⟩ := r2
        simp only [hrest, Option.some.injEq, Prod.mk.injEq] at hrun
        obtain ⟨rfl, rfl⟩ := hrun
        rw [handles_constructed_for_append, List.length_append]
        obtain ⟨topics, ht, hcase⟩ := query_insert_topic_cases self n tn _ hq
        rcases hcase with ⟨h0, _, hr⟩ | ⟨_, ⟨c, hr, hc⟩, _⟩ | ⟨hmiss, _, h0, rk, _, _, hr⟩
        · simp only [Prod.mk.injEq] at hr
          obtain ⟨_, rfl, rfl⟩ := hr
          simpa [handles_constructed_for] using ih _ _ hrest
        · simp only [Prod.mk.injEq] at hr
          obtain ⟨_, rfl, rfl⟩ := hr
          simpa [hc name] using ih _ _ hrest
        · simp only [Prod.mk.injEq] at hr
          obtain ⟨_, rfl, rfl⟩ := hr
          by_cases hn : n = name
          · subst hn
            obtain ⟨e1, _⟩ := resolve_all_of_cached rest _ (g_hash_table_insert topics n h0) n h0
              rfl (lookup_insert_self _ _ _) selfB callsB hrest
            simp [handles_constructed_for, e1]
          · simpa [handles_constructed_for, hn] using ih _ _ hrest

/-- With a client and a cache present every sequence of resolve calls runs to
its end. -/
theorem resolve_all_returns (reqs : List (CStr × Option rd_kafka_topic_t))
    (self : KafkaDestDriver) (hk : self.kafka ≠ none) (ht : self.topics ≠ none) :
    ∃ r, resolve_all self reqs = some r := by
  induction reqs generalizing self with
  | nil => exact ⟨_, rfl⟩
  | cons req rest ih =>
    obtain ⟨n, tn⟩ := req
    obtain ⟨r, hr, hk1, ht1⟩ := query_insert_topic_returns self n tn hk ht
    obtain ⟨ret, selfA, callsA⟩ := r
    obtain ⟨r2, hr2⟩ := ih selfA hk1 ht1
    refine ⟨(r2.1, callsA ++ r2.2), ?_⟩
    simp only [resolve_all, hr, hr2]

/-! ## Lemmas on initialisation -/

theorem topic_name_is_a_template_iff (t : LogTemplate) :
    _topic_name_is_a_template t = true ↔ '$' ∈ t.template := by
  simp [_topic_name_is_a_template]

theorem setter_apply_keeps_handles (self : KafkaDestDriver) (op : Setter) :
    (op.apply self).kafka = self.kafka ∧ (op.apply self).topic = self.topic ∧
      (op.apply self).topics = self.topics := by
  cases op <;> exact ⟨rfl, rfl, rfl⟩

theorem foldl_setters_keeps_handles (ops : List Setter) (self : KafkaDestDriver) :
    (ops.foldl Setter.apply self).kafka = self.kafka ∧
      (ops.foldl Setter.apply self).topic = self.topic ∧
      (ops.foldl Setter.apply self).topics = self.topics := by
  induction ops generalizing self with
  | nil => exact ⟨rfl, rfl, rfl⟩
  | cons op rest ih =>
    obtain ⟨h1, h2, h3⟩ := ih (op.apply self)
    obtain ⟨g1, g2, g3⟩ := setter_apply_keeps_handles self op
    exact ⟨h1.trans g1, h2.trans g2, h3.trans g3⟩

/-- A driver that only went through `kafka_dd_new` and setters has no client, no
fixed topic handle and no topic cache. -/
theorem configured_fresh (ops : List Setter) :
    (configured ops).kafka = none ∧ (configured ops).topic = none ∧
      (configured ops).topics = none :=
  foldl_setters_keeps_handles ops kafka_dd_new

theorem apply_config_props_no_topic_new (ans : InitAnswers) (props : List KafkaProperty) :
    (_apply_config_props ans props).filter is_topic_new_call = [] := by
  induction props with
  | nil => rfl
  | cons kp ll ih =>
    simp only [_apply_config_props, _conf_set_prop, List.filter_append, ih]
    split <;> rfl

theorem construct_client_no_topic_new (self : KafkaDestDriver) (ans : InitAnswers) :
    (_construct_client self ans).2.filter is_topic_new_call = [] := by
  unfold _construct_client
  cases ans.rd_kafka_new <;>
    simp only [_conf_set_prop, List.filter_append, apply_config_props_no_topic_new] <;>
    split <;> split <;> rfl

/-- With a client present `_construct_topic` returns: the broker's answer for a
valid name, `NULL` for an invalid one. -/
theorem construct_topic_of_client (self : KafkaDestDriver) (rk : rd_kafka_t) (name : CStr)
    (topic_new : Option rd_kafka_topic_t) (hk : self.kafka = some rk) :
    _construct_topic self name topic_new =
      if (kafka_dd_validate_topic_name name).1 then
        some (topic_new, [Call.rd_kafka_topic_new rk name topic_new])
      else some (none, [Call.msg_event Message.error_constructing_topic]) := by
  simp [_construct_topic, hk]

/-- The topic configurations that must make initialisation fail: a template
without fallback, an invalid literal name, a template with an invalid
fallback. -/
theorem init_topic_and_rest_failure (self : KafkaDestDriver) (rk : rd_kafka_t)
    (t : LogTemplate) (ans : InitAnswers) (hk : self.kafka = some rk)
    (hbad : ('$' ∈ t.template ∧ self.fallback_topic_name = none) ∨
      ('$' ∉ t.template ∧ (kafka_dd_validate_topic_name t.template).1 = false) ∨
      ('$' ∈ t.template ∧ ∃ fb, self.fallback_topic_name = some fb ∧
        (kafka_dd_validate_topic_name fb).1 = false)) :
    ∃ self1 calls, kafka_dd_init_topic_and_rest self t ans = some (false, self1, calls) ∧
      self1.topics = self.topics ∧ self1.kafka = self.kafka ∧
      calls.filter is_topic_new_call = [] := by
  rcases hbad with ⟨ht, hf⟩ | ⟨ht, hv⟩ | ⟨ht, fb, hf, hv⟩
  · have ht1 := (topic_name_is_a_template_iff t).mpr ht
    have heq : kafka_dd_init_topic_and_rest self t ans =
        some (false, self, [Call.msg_event Message.topic_name_is_a_template,
          Call.msg_event Message.fallback_topic_required]) := by
      simp [kafka_dd_init_topic_and_rest, _init_topic_name, ht1, _init_template_topic_name, hf]
    exact ⟨_, _, heq, rfl, rfl, rfl⟩
  · have ht1 : _topic_name_is_a_template t = false := by
      rw [← Bool.not_eq_true, topic_name_is_a_template_iff]; exact ht
    have heq : kafka_dd_init_topic_and_rest self t ans =
        some (false, { self with topic := none },
          [Call.msg_event Message.error_constructing_topic,
            Call.msg_event Message.error_constructing_kafka_topic]) := by
      simp [kafka_dd_init_topic_and_rest, _init_topic_name, ht1, _init_literal_topic_name,
        construct_topic_of_client self rk _ _ hk, hv]
    exact ⟨_, _, heq, rfl, rfl, rfl⟩
  · have ht1 := (topic_name_is_a_template_iff t).mpr ht
    have heq : kafka_dd_init_topic_and_rest self t ans =
        some (false, self, [Call.msg_event Message.topic_name_is_a_template,
          Call.msg_event Message.error_constructing_topic,
          Call.msg_event Message.error_constructing_fallback_topic]) := by
      simp [kafka_dd_init_topic_and_rest, _init_topic_name, ht1, _init_template_topic_name, hf,
        construct_topic_of_client self rk _ _ hk, hv]
    exact ⟨_, _, heq, rfl, rfl, rfl⟩

/-- What a successful run of the topic part of initialisation leaves behind. -/
theorem init_topic_and_rest_success (self : KafkaDestDriver) (rk : rd_kafka_t)
    (t : LogTemplate) (ans : InitAnswers) (self1 : KafkaDestDriver) (calls : List Call)
    (hk : self.kafka = some rk)
    (h : kafka_dd_init_topic_and_rest self t ans = some (true, self1, calls)) :
    self1.kafka = some rk ∧
    (('$' ∈ t.template ∧ ∃ fb hd, self.fallback_topic_name = some fb ∧
        ans.rd_kafka_topic_new = some hd ∧ (kafka_dd_validate_topic_name fb).1 = true ∧
        self1.topics = some [(fb, hd)] ∧ self1.topic = self.topic ∧
        calls.filter is_topic_new_call = [Call.rd_kafka_topic_new rk fb (some hd)]) ∨
     ('$' ∉ t.template ∧ ∃ hd, ans.rd_kafka_topic_new = some hd ∧
        (kafka_dd_validate_topic_name t.template).1 = true ∧
        self1.topic = some hd ∧ self1.topics = self.topics ∧
        calls.filter is_topic_new_call =
          [Call.rd_kafka_topic_new rk t.template (some hd)])) := by
  unfold kafka_dd_init_topic_and_rest _init_topic_name at h
  by_cases ht : '$' ∈ t.template
  · have ht1 := (topic_name_is_a_template_iff t).mpr ht
    simp only [ht1, if_true, _init_template_topic_name] at h
    cases hf : self.fallback_topic_name with
    | none => simp [hf] at h
    | some fb =>
      simp only [hf, construct_topic_of_client self rk _ _ hk] at h
      cases hv : (kafka_dd_validate_topic_name fb).1 with
      | false => simp [hv] at h
      | true =>
        cases htn : ans.rd_kafka_topic_new with
        | none => simp [hv, htn] at h
        | some hd =>
          simp only [hv, htn, if_true] at h
          cases hi : ans.log_threaded_dest_driver_init_method with
          | false => simp [hi] at h
          | true =>
            simp only [hi, Bool.not_true, Bool.false_eq_true, if_false, Option.some.injEq,
              Prod.mk.injEq, true_and] at h
            obtain ⟨h1, h2⟩ := h
            subst h2
            subst h1
            refine ⟨?_, Or.inl ⟨ht, fb, hd, rfl, rfl, hv, ?_, ?_, ?_⟩⟩
            · split <;> exact hk
            · split <;> rfl
            · split <;> rfl
            · rfl
  · have ht1 : _topic_name_is_a_template t = false := by
      rw [← Bool.not_eq_true, topic_name_is_a_template_iff]; exact ht
    simp only [ht1, Bool.false_eq_true, if_false, _init_literal_topic_name,
      construct_topic_of_client self rk _ _ hk] at h
    cases hv : (kafka_dd_validate_topic_name t.template).1 with
    | false => simp [hv] at h
    | true =>
      cases htn : ans.rd_kafka_topic_new with
      | none => simp [hv, htn] at h
      | some hd =>
        simp only [hv, htn, if_true] at h
        cases hi : ans.log_threaded_dest_driver_init_method with
        | false => simp [hi] at h
        | true =>
          simp only [hi, Bool.not_true, Bool.false_eq_true, if_false, Option.some.injEq,
            Prod.mk.injEq, true_and] at h
          obtain ⟨h1, h2⟩ := h
          subst h2
          subst h1
          refine ⟨?_, Or.inr ⟨ht, hd, rfl, rfl, ?_, ?_, ?_⟩⟩
          · split <;> exact hk
          · split <;> rfl
          · split <;> rfl
          · rfl

/-- With a client present the topic part of initialisation returns (no assertion
fails). -/
theorem init_topic_and_rest_returns (self : KafkaDestDriver) (rk : rd_kafka_t)
    (t : LogTemplate) (ans : InitAnswers) (hk : self.kafka = some rk) :
    ∃ r, kafka_dd_init_topic_and_rest self t ans = some r := by
  unfold kafka_dd_init_topic_and_rest _init_topic_name _init_template_topic_name
    _init_literal_topic_name
  simp only [construct_topic_of_client self rk _ _ hk]
  cases _topic_name_is_a_template t with
  | false =>
    cases hv : (kafka_dd_validate_topic_name t.template).1 <;>
      cases ans.rd_kafka_topic_new <;>
      cases ans.log_threaded_dest_driver_init_method <;> simp [hv]
  | true =>
    cases self.fallback_topic_name with
    | none => simp
    | some fb =>
      cases hv : (kafka_dd_validate_topic_name fb).1 <;> cases ans.rd_kafka_topic_new <;>
        cases ans.log_threaded_dest_driver_init_method <;> simp [hv]

theorem construct_client_fst (self : KafkaDestDriver) (ans : InitAnswers) :
    (_construct_client self ans).1 = ans.rd_kafka_new := by
  unfold _construct_client
  cases ans.rd_kafka_new <;> rfl

/-- The four paths through `kafka_dd_init`: no topic name, a client already
present, client construction failing, client construction succeeding. -/
theorem kafka_dd_init_cases (self : KafkaDestDriver) (ans : InitAnswers) :
    (self.topic_name = none ∧
      kafka_dd_init self ans =
        some (false, self, [Call.msg_event Message.topic_argument_required])) ∨
    (∃ t rk, self.topic_name = some t ∧ self.kafka = some rk ∧
      kafka_dd_init self ans = kafka_dd_init_topic_and_rest self t ans) ∨
    (∃ t, self.topic_name = some t ∧ self.kafka = none ∧ ans.rd_kafka_new = none ∧
      ∃ calls, kafka_dd_init self ans = some (false, self, calls) ∧
        calls.filter is_topic_new_call = []) ∨
    (∃ t c, self.topic_name = some t ∧ self.kafka = none ∧ ans.rd_kafka_new = some c ∧
      kafka_dd_init self ans =
        (kafka_dd_init_topic_and_rest { self with kafka := some c } t ans).map
          (fun r => (r.1, r.2.1, (_construct_client self ans).2 ++ r.2.2))) := by
  obtain ⟨tn, fb, cfg, bs, key, message, fs, fr, pt, kafka, topic, topics⟩ := self
  cases tn with
  | none => exact Or.inl ⟨rfl, rfl⟩
  | some t =>
    cases kafka with
    | some rk => exact Or.inr (Or.inl ⟨t, rk, rfl, rfl, rfl⟩)
    | none =>
      rcases hcc : _construct_client ⟨some t, fb, cfg, bs, key, message, fs, fr, pt, none, topic,
        topics⟩ ans with ⟨client, calls⟩
      have h1 := construct_client_fst ⟨some t, fb, cfg, bs, key, message, fs, fr, pt, none, topic,
        topics⟩ ans
      have h2 := construct_client_no_topic_new ⟨some t, fb, cfg, bs, key, message, fs, fr, pt,
        none, topic, topics⟩ ans
      rw [hcc] at h1 h2
      simp only at h1 h2
      cases client with
      | none =>
        refine Or.inr (Or.inr (Or.inl ⟨t, rfl, rfl, h1.symm,
          calls ++ [Call.msg_event Message.error_constructing_connection], ?_, ?_⟩))
        · simp only [kafka_dd_init, hcc]
        · simp only [List.filter_append, h2]; rfl
      | some c =>
        refine Or.inr (Or.inr (Or.inr ⟨t, c, rfl, rfl, h1.symm, ?_⟩))
        simp only [kafka_dd_init, hcc]
        cases kafka_dd_init_topic_and_rest ⟨some t, fb, cfg, bs, key, message, fs, fr, pt, some c,
          topic, topics⟩ t ans with
        | none => rfl
        | some r => rfl

/-- The function `kafka_dd_init` returns on every driver and for every answer of
the environment. -/
theorem kafka_dd_init_returns (self : KafkaDestDriver) (ans : InitAnswers) :
    ∃ r, kafka_dd_init self ans = some r := by
  rcases kafka_dd_init_cases self ans with ⟨_, h⟩ | ⟨t, rk, _, hk, h⟩ | ⟨t, _, _, _, calls, h, _⟩ |
    ⟨t, c, _, _, _, h⟩
  · exact ⟨_, h⟩
  · rw [h]; exact init_topic_and_rest_returns self rk t ans hk
  · exact ⟨_, h⟩
  · obtain ⟨r, hr⟩ := init_topic_and_rest_returns { self with kafka := some c } c t ans rfl
    rw [h, hr]; exact ⟨_, rfl⟩

/-! ## The client is present whenever the cache is -/

theorem init_topic_and_rest_keeps_kafka (self : KafkaDestDriver) (t : LogTemplate)
    (ans : InitAnswers) (r : Bool × KafkaDestDriver × List Call)
    (h : kafka_dd_init_topic_and_rest self t ans = some r) : r.2.1.kafka = self.kafka := by
  obtain ⟨tn, fbo, cfg, bs, key, message, fs, fr, pt, kafka, topic, topics⟩ := self
  unfold kafka_dd_init_topic_and_rest _init_topic_name _init_template_topic_name
    _init_literal_topic_name _construct_topic at h
  cases kafka with
  | none =>
    cases fbo <;> cases ht : _topic_name_is_a_template t <;> simp [ht] at h
    subst h
    rfl
  | some rk =>
    cases ht : _topic_name_is_a_template t with
    | false =>
      cases hv : (kafka_dd_validate_topic_name t.template).1 <;>
        cases htn : ans.rd_kafka_topic_new <;>
        cases hi : ans.log_threaded_dest_driver_init_method <;>
        simp [ht, hv, htn, hi] at h <;> subst h <;> first | rfl | (split <;> rfl)
    | true =>
      cases fbo with
      | none =>
        simp [ht] at h
        subst h
        rfl
      | some fb =>
        cases hv : (kafka_dd_validate_topic_name fb).1 <;>
          cases htn : ans.rd_kafka_topic_new <;>
          cases hi : ans.log_threaded_dest_driver_init_method <;>
          simp [ht, hv, htn, hi] at h <;> subst h <;> first | rfl | (split <;> rfl)

theorem kafka_dd_init_keeps_client_invariant (self : KafkaDestDriver) (ans : InitAnswers)
    (r : Bool × KafkaDestDriver × List Call) (h : kafka_dd_init self ans = some r)
    (hinv : self.topics ≠ none → self.kafka ≠ none) :
    r.2.1.topics ≠ none → r.2.1.kafka ≠ none := by
  rcases kafka_dd_init_cases self ans with ⟨_, h1⟩ | ⟨t, rk, _, hk, h1⟩ |
    ⟨t, _, _, _, calls, h1, _⟩ | ⟨t, c, _, _, _, h1⟩
  · rw [h1] at h; cases h; exact hinv
  · rw [h1] at h
    intro _
    rw [init_topic_and_rest_keeps_kafka self t ans r h, hk]; simp
  · rw [h1] at h; cases h; exact hinv
  · rw [h1] at h
    cases hrest : kafka_dd_init_topic_and_rest { self with kafka := some c } t ans with
    | none => simp [hrest] at h
    | some r1 =>
      simp only [hrest, Option.map_some', Option.some.injEq] at h
      subst h
      intro _
      show r1.2.1.kafka ≠ none
      rw [init_topic_and_rest_keeps_kafka _ t ans r1 hrest]; simp

/-- Whenever a driver that started from `kafka_dd_new` and setter calls has a
topic cache, after any sequence of lifecycle operations, it also has a client:
the assertion of `_construct_topic` cannot fail under
`kafka_dd_query_insert_topic` on such a driver. -/
theorem cache_present_implies_client_present (lops : List LifecycleOp)
    (self self1 : KafkaDestDriver) (calls : List Call)
    (hinv : self.topics ≠ none → self.kafka ≠ none)
    (hrun : run_lifecycle self lops = some (self1, calls)) :
    self1.topics ≠ none → self1.kafka ≠ none := by
  induction lops generalizing self calls with
  | nil =>
    simp only [run_lifecycle, Option.some.injEq, Prod.mk.injEq] at hrun
    obtain ⟨rfl, _⟩ := hrun
    exact hinv
  | cons op rest ih =>
    simp only [run_lifecycle] at hrun
    cases hstep : op.step self with
    | none => simp [hstep] at hrun
    | some r =>
      obtain ⟨selfA, callsA⟩ := r
      simp only [hstep] at hrun
      cases hrest : run_lifecycle selfA rest with
      | none => simp [hrest] at hrun
      | some r2 =>
        obtain ⟨selfB, callsB⟩ := r2
        simp only [hrest, Option.some.injEq, Prod.mk.injEq] at hrun
        obtain ⟨rfl, _⟩ := hrun
        refine ih selfA callsB ?_ hrest
        cases op with
        | init ans =>
          simp only [LifecycleOp.step] at hstep
          cases hi : kafka_dd_init self ans with
          | none => simp [hi] at hstep
          | some ri =>
            simp only [hi, Option.some.injEq, Prod.mk.injEq] at hstep
            obtain ⟨rfl, _⟩ := hstep
            exact kafka_dd_init_keeps_client_invariant self ans ri hi hinv
        | query_insert_topic name topic_new =>
          simp only [LifecycleOp.step] at hstep
          cases hq : kafka_dd_query_insert_topic self name topic_new with
          | none => simp [hq] at hstep
          | some rq =>
            simp only [hq, Option.some.injEq, Prod.mk.injEq] at hstep
            obtain ⟨rfl, _⟩ := hstep
            obtain ⟨topics, ht, hcase⟩ := query_insert_topic_cases self name topic_new rq hq
            have hk : self.kafka ≠ none := hinv (by rw [ht]; simp)
            rcases hcase with ⟨_, _, hr⟩ | ⟨_, ⟨_, hr, _⟩, _⟩ | ⟨_, _, _, _, _, _, hr⟩ <;>
              rw [hr] <;> intro _ <;> exact hk
        | deinit ans =>
          simp only [LifecycleOp.step, Option.some.injEq, Prod.mk.injEq] at hstep
          obtain ⟨rfl, _⟩ := hstep
          exact hinv

/-! ## The topic cache: claims C4 and C5 -/

/-- C4: for every driver with a topic cache and every name,
`kafka_dd_query_insert_topic` on a name present in the cache returns the cached
handle, makes no call (constructs nothing) and leaves the driver unchanged; this
holds for the fallback name seeded by `kafka_dd_init`, found by string equality;
once a resolve has returned a handle for a name, every later resolve of that
name, after any further resolves, returns the same handle; any sequence of
resolve calls constructs at most one handle per name; and with a client and a
cache present every such sequence runs to its end. -/
theorem query_insert_topic_reuses_cached_handle :
    (∀ (self : KafkaDestDriver) (topics : GHashTable) (name : CStr) (h : rd_kafka_topic_t)
        (topic_new : Option rd_kafka_topic_t),
        self.topics = some topics → g_hash_table_lookup topics name = some h →
        kafka_dd_query_insert_topic self name topic_new = some (some h, self, [])) ∧
    (∀ (ops : List Setter) (ans : InitAnswers) (self1 : KafkaDestDriver) (calls : List Call)
        (t : LogTemplate) (fb : CStr),
        (configured ops).topic_name = some t → '$' ∈ t.template →
        (configured ops).fallback_topic_name = some fb →
        kafka_dd_init (configured ops) ans = some (true, self1, calls) →
        ∃ h, ans.rd_kafka_topic_new = some h ∧
          ∀ topic_new, kafka_dd_query_insert_topic self1 fb topic_new =
            some (some h, self1, [])) ∧
    (∀ (self : KafkaDestDriver) (name : CStr) (topic_new : Option rd_kafka_topic_t)
        (h : rd_kafka_topic_t) (self1 : KafkaDestDriver) (calls : List Call)
        (later : List (CStr × Option rd_kafka_topic_t)) (self2 : KafkaDestDriver)
        (calls2 : List Call) (topic_new2 : Option rd_kafka_topic_t),
        kafka_dd_query_insert_topic self name topic_new = some (some h, self1, calls) →
        resolve_all self1 later = some (self2, calls2) →
        kafka_dd_query_insert_topic self2 name topic_new2 = some (some h, self2, [])) ∧
    (∀ (self : KafkaDestDriver) (reqs : List (CStr × Option rd_kafka_topic_t))
        (self1 : KafkaDestDriver) (calls : List Call) (name : CStr),
        resolve_all self reqs = some (self1, calls) →
        (handles_constructed_for name calls).length ≤ 1) ∧
    (∀ (self : KafkaDestDriver) (reqs : List (CStr × Option rd_kafka_topic_t)),
        self.kafka ≠ none → self.topics ≠ none → ∃ r, resolve_all self reqs = some r) := by
  refine ⟨?_, ?_, ?_, ?_, ?_⟩
  · intro self topics name h topic_new ht hl
    exact query_insert_topic_hit self topics name h topic_new ht hl
  · intro ops ans self1 calls t fb htn htmpl hfb hinit
    obtain ⟨hk0, _, _⟩ := configured_fresh ops
    rcases kafka_dd_init_cases (configured ops) ans with ⟨hn, _⟩ | ⟨_, rk, _, hk, _⟩ |
      ⟨_, _, _, _, c, hc, _⟩ | ⟨t1, c, ht1, _, _, heq⟩
    · rw [hn] at htn; cases htn
    · rw [hk0] at hk; cases hk
    · rw [hc] at hinit; simp at hinit
    · rw [htn] at ht1
      cases ht1
      rw [heq] at hinit
      cases hrest : kafka_dd_init_topic_and_rest { configured ops with kafka := some c } t ans with
      | none => simp [hrest] at hinit
      | some r =>
        obtain ⟨ret, s1, c1⟩ := r
        simp only [hrest, Option.map_some', Option.some.injEq, Prod.mk.injEq] at hinit
        obtain ⟨rfl, rfl, _⟩ := hinit
        obtain ⟨_, hcase⟩ := init_topic_and_rest_success _ c t ans s1 c1 rfl hrest
        rcases hcase with ⟨_, fb1, hd, hfb1, hans, _, htopics, _, _⟩ | ⟨hnot, _⟩
        · have hfbeq : fb1 = fb := by
            have : (configured ops).fallback_topic_name = some fb1 := hfb1
            rw [hfb] at this; cases this; rfl
          subst hfbeq
          refine ⟨hd, hans, fun topic_new => ?_⟩
          exact query_insert_topic_hit s1 _ fb1 hd topic_new htopics
            (by simp [g_hash_table_lookup])
        · exact absurd htmpl hnot
  · intro self name topic_new h self1 calls later self2 calls2 topic_new2 hq hrun
    obtain ⟨topics, ht, hcase⟩ := query_insert_topic_cases self name topic_new _ hq
    have hcached : ∃ topics1, self1.topics = some topics1 ∧
        g_hash_table_lookup topics1 name = some h := by
      rcases hcase with ⟨h0, hl, hr⟩ | ⟨_, ⟨c, hr, _⟩, _⟩ | ⟨_, _, h0, rk, _, _, hr⟩
      · simp only [Prod.mk.injEq, Option.some.injEq] at hr
        obtain ⟨rfl, rfl, _⟩ := hr
        exact ⟨topics, ht, hl⟩
      · simp only [Prod.mk.injEq] at hr
        exact absurd hr.1 (by simp)
      · simp only [Prod.mk.injEq, Option.some.injEq] at hr
        obtain ⟨rfl, rfl, _⟩ := hr
        exact ⟨_, rfl, lookup_insert_self _ _ _⟩
    obtain ⟨topics1, ht1, hl1⟩ := hcached
    obtain ⟨_, topics2, ht2, hl2⟩ :=
      resolve_all_of_cached later self1 topics1 name h ht1 hl1 self2 calls2 hrun
    exact query_insert_topic_hit self2 topics2 name h topic_new2 ht2 hl2
  · intro self reqs self1 calls name hrun
    exact resolve_all_constructs_at_most_one reqs self self1 calls name hrun
  · intro self reqs hk ht
    exact resolve_all_returns reqs self hk ht

/-- Instance of C4 on a running driver whose cache holds `fallback`: resolving
`fallback` returns handle 1 unchanged, and a sequence resolving `events-a` twice
constructs at most one handle for it. -/
theorem query_insert_topic_reuses_cached_handle_witness :
    kafka_dd_query_insert_topic running_template_driver "fallback".toList (some 9) =
      some (some 1, running_template_driver, []) ∧
    ∃ self1 calls,
      resolve_all running_template_driver
        [("events-a".toList, some 2), ("events-b".toList, some 3), ("events-a".toList, some 4),
          ("fallback".toList, some 5)] = some (self1, calls) ∧
      (handles_constructed_for "events-a".toList calls).length ≤ 1 := by
  refine ⟨query_insert_topic_reuses_cached_handle.1 running_template_driver
    [("fallback".toList, 1)] "fallback".toList 1 (some 9) rfl (by decide), ?_⟩
  obtain ⟨⟨self1, calls⟩, hr⟩ := query_insert_topic_reuses_cached_handle.2.2.2.2
    running_template_driver
    [("events-a".toList, some 2), ("events-b".toList, some 3), ("events-a".toList, some 4),
      ("fallback".toList, some 5)] (by decide) (by decide)
  exact ⟨self1, calls, hr,
    query_insert_topic_reuses_cached_handle.2.2.2.1 _ _ self1 calls "events-a".toList hr⟩

/-- C5: for every driver with a client and a topic cache and every name not in
the cache, if the name fails validation or the broker returns no handle, then
`kafka_dd_query_insert_topic` returns `NULL`, constructs no handle and leaves
the driver, its cache included, exactly as it was. -/
theorem query_insert_topic_failure_leaves_cache (self : KafkaDestDriver) (rk : rd_kafka_t)
    (topics : GHashTable) (name : CStr) (topic_new : Option rd_kafka_topic_t)
    (hk : self.kafka = some rk) (ht : self.topics = some topics)
    (hmiss : g_hash_table_lookup topics name = none)
    (hfail : (kafka_dd_validate_topic_name name).1 = false ∨ topic_new = none) :
    ∃ calls, kafka_dd_query_insert_topic self name topic_new = some (none, self, calls) ∧
      (∀ n, handles_constructed_for n calls = []) ∧
      self.topics = some topics ∧ g_hash_table_lookup topics name = none := by
  obtain ⟨r, hr, _⟩ := query_insert_topic_returns self name topic_new
    (by rw [hk]; simp) (by rw [ht]; simp)
  obtain ⟨topics0, ht0, hcase⟩ := query_insert_topic_cases self name topic_new r hr
  rw [ht] at ht0
  cases ht0
  rcases hcase with ⟨h0, hl, _⟩ | ⟨_, ⟨c, hrc, hc⟩, _⟩ | ⟨_, hv, h0, _, htn, _, _⟩
  · rw [hmiss] at hl; cases hl
  · exact ⟨c, by rw [hr, hrc], hc, ht, hmiss⟩
  · rcases hfail with hf | hf
    · rw [hv] at hf; cases hf
    · rw [hf] at htn; cases htn

/-- Instance of C5 at the invalid name `bad name`: `NULL` is returned and the
driver is unchanged. -/
theorem query_insert_topic_failure_leaves_cache_witness :
    ∃ calls, kafka_dd_query_insert_topic running_template_driver "bad name".toList (some 9) =
        some (none, running_template_driver, calls) ∧
      (∀ n, handles_constructed_for n calls = []) ∧
      running_template_driver.topics = some [("fallback".toList, 1)] ∧
      g_hash_table_lookup [("fallback".toList, 1)] "bad name".toList = none :=
  query_insert_topic_failure_leaves_cache running_template_driver 7 [("fallback".toList, 1)]
    "bad name".toList (some 9) rfl rfl (by decide) (Or.inl (by decide))

/-! ## Initialisation: claims C7 and C8 -/

/-- C7: for every driver obtained from `kafka_dd_new` by setter calls on which
`kafka_dd_init` returns `TRUE`: if the topic name contains `$`, the topic cache
holds exactly one entry, keyed by the fallback topic name, with the handle that
`rd_kafka_topic_new` returned for it, and no fixed topic handle is set; if the
topic name does not contain `$`, `rd_kafka_topic_new` is called exactly once,
for the topic name, its handle is held in `self->topic`, and there is no topic
cache. -/
theorem init_seeds_cache_or_fixes_topic (ops : List Setter) (ans : InitAnswers)
    (t : LogTemplate) (self1 : KafkaDestDriver) (calls : List Call)
    (htn : (configured ops).topic_name = some t)
    (hinit : kafka_dd_init (configured ops) ans = some (true, self1, calls)) :
    ('$' ∈ t.template →
      ∃ fb h rk, (configured ops).fallback_topic_name = some fb ∧
        ans.rd_kafka_topic_new = some h ∧ self1.kafka = some rk ∧
        self1.topics = some [(fb, h)] ∧ self1.topic = none ∧
        kafka_dd_is_topic_name_a_template self1 = true ∧
        calls.filter is_topic_new_call = [Call.rd_kafka_topic_new rk fb (some h)]) ∧
    ('$' ∉ t.template →
      ∃ h rk, ans.rd_kafka_topic_new = some h ∧ self1.kafka = some rk ∧
        self1.topic = some h ∧ self1.topics = none ∧
        kafka_dd_is_topic_name_a_template self1 = false ∧
        calls.filter is_topic_new_call = [Call.rd_kafka_topic_new rk t.template (some h)]) := by
  obtain ⟨hk0, htopic0, htopics0⟩ := configured_fresh ops
  rcases kafka_dd_init_cases (configured ops) ans with ⟨hn, _⟩ | ⟨_, rk, _, hk, _⟩ |
    ⟨_, _, _, _, c, hc, _⟩ | ⟨t1, c, ht1, _, _, heq⟩
  · rw [hn] at htn; cases htn
  · rw [hk0] at hk; cases hk
  · rw [hc] at hinit; simp at hinit
  · rw [htn] at ht1
    cases ht1
    rw [heq] at hinit
    cases hrest : kafka_dd_init_topic_and_rest { configured ops with kafka := some c } t ans with
    | none => simp [hrest] at hinit
    | some r =>
      obtain ⟨ret, s1, c1⟩ := r
      simp only [hrest, Option.map_some', Option.some.injEq, Prod.mk.injEq] at hinit
      obtain ⟨rfl, rfl, rfl⟩ := hinit
      have hclient := construct_client_no_topic_new (configured ops) ans
      obtain ⟨hk1, hcase⟩ := init_topic_and_rest_success _ c t ans s1 c1 rfl hrest
      rcases hcase with ⟨hin, fb, hd, hfb, hans, _, htopics, htopic, hcalls⟩ |
        ⟨hnot, hd, hans, _, htopic, htopics, hcalls⟩
      · refine ⟨fun _ => ⟨fb, hd, c, hfb, hans, hk1, htopics, ?_, ?_, ?_⟩,
          fun h => absurd hin h⟩
        · rw [htopic]; exact htopic0
        · unfold kafka_dd_is_topic_name_a_template
          rw [htopic]
          show (configured ops).topic.isNone = true
          rw [htopic0]; rfl
        · rw [List.filter_append, hclient, hcalls]; rfl
      · refine ⟨fun h => absurd h hnot, fun _ => ⟨hd, c, hans, hk1, htopic, ?_, ?_, ?_⟩⟩
        · rw [htopics]; exact htopics0
        · unfold kafka_dd_is_topic_name_a_template
          rw [htopic]; rfl
        · rw [List.filter_append, hclient, hcalls]; rfl

/-- Instance of C7 at the templated topic `events-$HOST` with fallback `fallback`
and at the literal topic `events`. -/
theorem init_seeds_cache_or_fixes_topic_witness :
    (∃ fb h rk, template_driver.fallback_topic_name = some fb ∧
        (init_answers_ok 1).rd_kafka_topic_new = some h ∧
        (init_result template_driver (init_answers_ok 1)).2.1.kafka = some rk ∧
        (init_result template_driver (init_answers_ok 1)).2.1.topics = some [(fb, h)] ∧
        (init_result template_driver (init_answers_ok 1)).2.1.topic = none ∧
        kafka_dd_is_topic_name_a_template
          (init_result template_driver (init_answers_ok 1)).2.1 = true ∧
        (init_result template_driver (init_answers_ok 1)).2.2.filter is_topic_new_call =
          [Call.rd_kafka_topic_new rk fb (some h)]) ∧
    (∃ h rk, (init_answers_ok 1).rd_kafka_topic_new = some h ∧
        (init_result literal_driver (init_answers_ok 1)).2.1.kafka = some rk ∧
        (init_result literal_driver (init_answers_ok 1)).2.1.topic = some h ∧
        (init_result literal_driver (init_answers_ok 1)).2.1.topics = none ∧
        kafka_dd_is_topic_name_a_template
          (init_result literal_driver (init_answers_ok 1)).2.1 = false ∧
        (init_result literal_driver (init_answers_ok 1)).2.2.filter is_topic_new_call =
          [Call.rd_kafka_topic_new rk "events".toList (some h)]) :=
  ⟨(init_seeds_cache_or_fixes_topic template_setters (init_answers_ok 1)
      { template := "events-$HOST".toList }
      (init_result template_driver (init_answers_ok 1)).2.1
      (init_result template_driver (init_answers_ok 1)).2.2 rfl (by decide)).1 (by decide),
   (init_seeds_cache_or_fixes_topic literal_setters (init_answers_ok 1)
      { template := "events".toList }
      (init_result literal_driver (init_answers_ok 1)).2.1
      (init_result literal_driver (init_answers_ok 1)).2.2 rfl (by decide)).2 (by decide)⟩

/-- C8: on every driver and for every answer of the environment,
`kafka_dd_init` returns `FALSE` when the topic name is absent, or the topic name
contains `$` and no fallback topic name is configured, or the topic name does
not contain `$` and is rejected by `kafka_dd_validate_topic_name`, or the topic
name contains `$` and the fallback topic name is rejected by the validator; in
each case `self->topics` is left as it was (no topic cache is created) and
`rd_kafka_topic_new` is not called. -/
theorem init_fails_on_bad_topic_configuration (self : KafkaDestDriver) (ans : InitAnswers)
    (hbad : self.topic_name = none ∨
      (∃ t, self.topic_name = some t ∧ '$' ∈ t.template ∧ self.fallback_topic_name = none) ∨
      (∃ t, self.topic_name = some t ∧ '$' ∉ t.template ∧
        (kafka_dd_validate_topic_name t.template).1 = false) ∨
      (∃ t fb, self.topic_name = some t ∧ '$' ∈ t.template ∧
        self.fallback_topic_name = some fb ∧ (kafka_dd_validate_topic_name fb).1 = false)) :
    ∃ self1 calls, kafka_dd_init self ans = some (false, self1, calls) ∧
      self1.topics = self.topics ∧ calls.filter is_topic_new_call = [] := by
  rcases kafka_dd_init_cases self ans with ⟨_, h⟩ | ⟨t, rk, ht, hk, h⟩ |
    ⟨t, _, _, _, calls, h, hc⟩ | ⟨t, c, ht, _, _, h⟩
  · exact ⟨_, _, h, rfl, rfl⟩
  · have hbad1 : ('$' ∈ t.template ∧ self.fallback_topic_name = none) ∨
        ('$' ∉ t.template ∧ (kafka_dd_validate_topic_name t.template).1 = false) ∨
        ('$' ∈ t.template ∧ ∃ fb, self.fallback_topic_name = some fb ∧
          (kafka_dd_validate_topic_name fb).1 = false) := by
      rcases hbad with h0 | ⟨t1, h1, h2, h3⟩ | ⟨t1, h1, h2, h3⟩ | ⟨t1, fb, h1, h2, h3, h4⟩
      · rw [ht] at h0; cases h0
      · rw [ht] at h1; cases h1; exact Or.inl ⟨h2, h3⟩
      · rw [ht] at h1; cases h1; exact Or.inr (Or.inl ⟨h2, h3⟩)
      · rw [ht] at h1; cases h1; exact Or.inr (Or.inr ⟨h2, fb, h3, h4⟩)
    obtain ⟨self1, calls, hr, htopics, _, hcalls⟩ :=
      init_topic_and_rest_failure self rk t ans hk hbad1
    exact ⟨self1, calls, by rw [h, hr], htopics, hcalls⟩
  · exact ⟨_, _, h, rfl, hc⟩
  · have hbad1 : ('$' ∈ t.template ∧ self.fallback_topic_name = none) ∨
        ('$' ∉ t.template ∧ (kafka_dd_validate_topic_name t.template).1 = false) ∨
        ('$' ∈ t.template ∧ ∃ fb, self.fallback_topic_name = some fb ∧
          (kafka_dd_validate_topic_name fb).1 = false) := by
      rcases hbad with h0 | ⟨t1, h1, h2, h3⟩ | ⟨t1, h1, h2, h3⟩ | ⟨t1, fb, h1, h2, h3, h4⟩
      · rw [ht] at h0; cases h0
      · rw [ht] at h1; cases h1; exact Or.inl ⟨h2, h3⟩
      · rw [ht] at h1; cases h1; exact Or.inr (Or.inl ⟨h2, h3⟩)
      · rw [ht] at h1; cases h1; exact Or.inr (Or.inr ⟨h2, fb, h3, h4⟩)
    obtain ⟨self1, calls, hr, htopics, _, hcalls⟩ :=
      init_topic_and_rest_failure { self with kafka := some c } c t ans rfl hbad1
    refine ⟨self1, (_construct_client self ans).2 ++ calls, by rw [h, hr]; rfl, htopics, ?_⟩
    rw [List.filter_append, construct_client_no_topic_new, hcalls]; rfl

/-- Instance of C8 at the templated topic `events-$HOST` without fallback topic. -/
theorem init_fails_on_bad_topic_configuration_witness :
    ∃ self1 calls,
      kafka_dd_init (configured template_setters_without_fallback) (init_answers_ok 1) =
        some (false, self1, calls) ∧
      self1.topics = (configured template_setters_without_fallback).topics ∧
      calls.filter is_topic_new_call = [] :=
  init_fails_on_bad_topic_configuration (configured template_setters_without_fallback)
    (init_answers_ok 1)
    (Or.inr (Or.inl ⟨{ template := "events-$HOST".toList }, rfl, by decide, rfl⟩))

/-! ## Drain: claims C9 and C10 -/

/-- C9: for every driver and every answer of the environment, the drain calls
made by `kafka_dd_deinit` are, in this order and each exactly once,
`rd_kafka_flush` with the timeout of `_get_flush_timeout`, `rd_kafka_purge` with
the queue and in-flight flags, and `rd_kafka_poll` with timeout 0, whatever the
outstanding counts read; the message about entries left after flush and purge
is emitted exactly when the count read after purge and poll is nonzero, so that
with a count of 0 throughout, flush and purge are still called and that message
is not emitted. -/
theorem deinit_drain_sequence (self : KafkaDestDriver) (ans : DeinitAnswers) :
    (kafka_dd_deinit self ans).2.filter is_drain_call =
      [Call.rd_kafka_flush self.kafka (_get_flush_timeout self ans.cfg_is_shutting_down),
        Call.rd_kafka_purge self.kafka (RD_KAFKA_PURGE_F_QUEUE ||| RD_KAFKA_PURGE_F_INFLIGHT),
        Call.rd_kafka_poll self.kafka 0] ∧
    (Call.msg_event Message.failed_to_empty_queues ∈ (kafka_dd_deinit self ans).2 ↔
      ans.outq_len_after_purge ≠ 0) ∧
    (ans.outq_len_before_flush = 0 → ans.outq_len_after_flush = 0 →
      ans.outq_len_after_purge = 0 →
      Call.rd_kafka_flush self.kafka (_get_flush_timeout self ans.cfg_is_shutting_down) ∈
        (kafka_dd_deinit self ans).2 ∧
      Call.rd_kafka_purge self.kafka (RD_KAFKA_PURGE_F_QUEUE ||| RD_KAFKA_PURGE_F_INFLIGHT) ∈
        (kafka_dd_deinit self ans).2 ∧
      Call.msg_event Message.failed_to_empty_queues ∉ (kafka_dd_deinit self ans).2) := by
  unfold kafka_dd_deinit _flush_inflight_messages _purge_remaining_messages
  by_cases h1 : ans.outq_len_before_flush > 0 <;>
    by_cases h2 : ans.rd_kafka_flush = RD_KAFKA_RESP_ERR_NO_ERROR <;>
    by_cases h3 : ans.outq_len_after_flush = 0 <;>
    by_cases h4 : ans.outq_len_after_purge = 0 <;>
    simp [h1, h2, h3, h4, is_drain_call]

/-- Instance of C9 with an outstanding count of 0 throughout: flush and purge are
called and the message about entries left is not emitted. -/
theorem deinit_drain_sequence_witness :
    Call.rd_kafka_flush running_template_driver.kafka
        (_get_flush_timeout running_template_driver deinit_answers_idle.cfg_is_shutting_down) ∈
        (kafka_dd_deinit running_template_driver deinit_answers_idle).2 ∧
      Call.rd_kafka_purge running_template_driver.kafka
        (RD_KAFKA_PURGE_F_QUEUE ||| RD_KAFKA_PURGE_F_INFLIGHT) ∈
        (kafka_dd_deinit running_template_driver deinit_answers_idle).2 ∧
      Call.msg_event Message.failed_to_empty_queues ∉
        (kafka_dd_deinit running_template_driver deinit_answers_idle).2 :=
  (deinit_drain_sequence running_template_driver deinit_answers_idle).2.2 rfl rfl rfl

theorem setter_apply_keeps_flush_timeouts (self : KafkaDestDriver) (op : Setter)
    (hop : op.sets_flush_timeout = false) :
    (op.apply self).flush_timeout_on_shutdown = self.flush_timeout_on_shutdown ∧
      (op.apply self).flush_timeout_on_reload = self.flush_timeout_on_reload := by
  cases op <;> first | exact ⟨rfl, rfl⟩ | cases hop

theorem foldl_setters_keeps_flush_timeouts (ops : List Setter) (self : KafkaDestDriver)
    (hops : ∀ op ∈ ops, op.sets_flush_timeout = false) :
    (ops.foldl Setter.apply self).flush_timeout_on_shutdown = self.flush_timeout_on_shutdown ∧
      (ops.foldl Setter.apply self).flush_timeout_on_reload = self.flush_timeout_on_reload := by
  induction ops generalizing self with
  | nil => exact ⟨rfl, rfl⟩
  | cons op rest ih =>
    obtain ⟨h1, h2⟩ := ih (op.apply self) (fun o ho => hops o (List.mem_cons_of_mem _ ho))
    obtain ⟨g1, g2⟩ := setter_apply_keeps_flush_timeouts self op (hops op (List.mem_cons_self _ _))
    exact ⟨h1.trans g1, h2.trans g2⟩

/-- C10 (counterexample): after `kafka_dd_set_flush_timeout_on_shutdown(d, 500)`
on a new driver the timeout used on shutdown is 500, which is not longer than
the timeout 1000 used on reload. -/
theorem shutdown_timeout_can_be_shorter_than_reload_timeout :
    _get_flush_timeout (configured [Setter.set_flush_timeout_on_shutdown 500]) true = 500 ∧
      _get_flush_timeout (configured [Setter.set_flush_timeout_on_shutdown 500]) false = 1000 ∧
      ¬ (_get_flush_timeout (configured [Setter.set_flush_timeout_on_shutdown 500]) true >
        _get_flush_timeout (configured [Setter.set_flush_timeout_on_shutdown 500]) false) := by
  decide

/-- C10 (amended): for every driver obtained from `kafka_dd_new` by setter calls
none of which is `kafka_dd_set_flush_timeout_on_shutdown` or
`kafka_dd_set_flush_timeout_on_reload`, the flush timeout used when the
configuration is shutting down is the default 60000, the one used otherwise is
the default 1000, and the former is longer. -/
theorem default_shutdown_timeout_longer_than_reload_timeout (ops : List Setter)
    (hops : ∀ op ∈ ops, op.sets_flush_timeout = false) :
    _get_flush_timeout (configured ops) true = 60000 ∧
      _get_flush_timeout (configured ops) false = 1000 ∧
      _get_flush_timeout (configured ops) true > _get_flush_timeout (configured ops) false := by
  obtain ⟨h1, h2⟩ := foldl_setters_keeps_flush_timeouts ops kafka_dd_new hops
  have e1 : _get_flush_timeout (configured ops) true = 60000 := by
    simp only [_get_flush_timeout, configured, if_true, h1]; rfl
  have e2 : _get_flush_timeout (configured ops) false = 1000 := by
    simp only [_get_flush_timeout, configured, Bool.false_eq_true, if_false, h2]; rfl
  refine ⟨e1, e2, ?_⟩
  rw [e1, e2]; decide

/-- Instance of C10 (amended) at a driver configured without timeout setters. -/
theorem default_shutdown_timeout_longer_than_reload_timeout_witness :
    (∀ op ∈ template_setters, op.sets_flush_timeout = false) ∧
      _get_flush_timeout (configured template_setters) true = 60000 ∧
      _get_flush_timeout (configured template_setters) false = 1000 ∧
      _get_flush_timeout (configured template_setters) true >
        _get_flush_timeout (configured template_setters) false :=
  ⟨by decide, default_shutdown_timeout_longer_than_reload_timeout template_setters (by decide)⟩

/-! ## One handle per topic name over the driver's life: claim C6 -/

/-- C6 (evaluation at the failing input): on the driver configured with the
literal topic `events`, the sequence `kafka_dd_init`, `kafka_dd_deinit`,
`kafka_dd_init` constructs two handles for `events` (1, then 2); afterwards
`self->topic` is handle 2 and handle 1 is held neither in `self->topic` nor in
the cache.  Likewise on the driver with the templated topic and fallback
`fallback`: two handles are constructed for `fallback`, and the cache holds
only the second. -/
theorem reinit_constructs_topic_again :
    (run_lifecycle literal_driver
        [LifecycleOp.init (init_answers_ok 1), LifecycleOp.deinit deinit_answers_idle,
          LifecycleOp.init (init_answers_ok 2)]).map
      (fun r => (handles_constructed_for "events".toList r.2, r.1.topic, r.1.topics,
        owns_handle r.1 1, owns_handle r.1 2)) =
      some ([1, 2], some 2, none, false, true) ∧
    (run_lifecycle template_driver
        [LifecycleOp.init (init_answers_ok 1), LifecycleOp.deinit deinit_answers_idle,
          LifecycleOp.init (init_answers_ok 2)]).map
      (fun r => (handles_constructed_for "fallback".toList r.2, r.1.topic, r.1.topics,
        owns_handle r.1 1, owns_handle r.1 2)) =
      some ([1, 2], none, some [("fallback".toList, 2)], false, true) := by
  constructor <;> rfl

/-! ## Lemmas on the configuration properties -/

theorem conf_set_calls_append (a b : List Call) :
    conf_set_calls (a ++ b) = conf_set_calls a ++ conf_set_calls b := by
  induction a with
  | nil => rfl
  | cons c rest ih =>
    cases c <;> simp [conf_set_calls, ih]

theorem conf_set_calls_conf_set_prop (ans : InitAnswers) (name : CStr) (value : Option CStr) :
    conf_set_calls (_conf_set_prop ans name value) = [(name, value)] := by
  unfold _conf_set_prop
  split <;> rfl

theorem conf_set_calls_apply_config_props (ans : InitAnswers) (props : List KafkaProperty) :
    conf_set_calls (_apply_config_props ans props) =
      props.map (fun kp => (kp.name, some kp.value)) := by
  induction props with
  | nil => rfl
  | cons kp ll ih =>
    simp only [_apply_config_props, conf_set_calls_append, conf_set_calls_conf_set_prop, ih,
      List.map_cons, List.singleton_append]

/-- The `rd_kafka_conf_set` calls of `_construct_client`, whatever the calls
return: the bootstrap address, the partitioner, then the user properties. -/
theorem conf_set_calls_construct_client (self : KafkaDestDriver) (ans : InitAnswers) :
    conf_set_calls (_construct_client self ans).2 =
      ("metadata.broker.list".toList, self.bootstrap_servers) ::
      ("topic.partitioner".toList, some "murmur2_random".toList) ::
      self.config.map (fun kp => (kp.name, some kp.value)) := by
  have e1 : conf_set_calls [Call.rd_kafka_conf_set_log_cb, Call.rd_kafka_conf_set_dr_cb,
      Call.rd_kafka_conf_set_opaque, Call.rd_kafka_new] = [] := rfl
  have e2 : conf_set_calls [Call.msg_event Message.error_constructing_connection_object] = [] :=
    rfl
  unfold _construct_client
  cases ans.rd_kafka_new <;>
    simp only [conf_set_calls_append, conf_set_calls_conf_set_prop,
      conf_set_calls_apply_config_props, e1, e2, List.append_nil,
      List.singleton_append, List.cons_append, List.nil_append]

theorem foldl_setters_config (ops : List Setter) (self : KafkaDestDriver) :
    (ops.foldl Setter.apply self).config = self.config ++ merged_properties ops := by
  induction ops generalizing self with
  | nil => simp [merged_properties]
  | cons op rest ih =>
    rw [List.foldl_cons, ih]
    cases op <;>
      simp [Setter.apply, merged_properties, kafka_dd_merge_config, kafka_dd_set_topic,
        kafka_dd_set_fallback_topic, kafka_dd_set_bootstrap_servers, kafka_dd_set_key_ref,
        kafka_dd_set_message_ref, kafka_dd_set_flush_timeout_on_shutdown,
        kafka_dd_set_flush_timeout_on_reload, kafka_dd_set_poll_timeout]

theorem value_in_effect_append (key : CStr) (a b : List (CStr × Option CStr)) :
    value_in_effect key (a ++ b) =
      match value_in_effect key b with
      | some later => some later
      | none => value_in_effect key a := by
  induction a with
  | nil =>
    simp only [List.nil_append, value_in_effect]
    cases value_in_effect key b <;> rfl
  | cons p rest ih =>
    obtain ⟨name, value⟩ := p
    show value_in_effect key ((name, value) :: (rest ++ b)) = _
    rw [value_in_effect, ih]
    cases value_in_effect key b <;> rfl

theorem value_in_effect_of_not_set (key : CStr) (l : List (CStr × Option CStr))
    (h : ∀ p ∈ l, p.1 ≠ key) : value_in_effect key l = none := by
  induction l with
  | nil => rfl
  | cons p rest ih =>
    obtain ⟨name, value⟩ := p
    have h1 : name ≠ key := h (name, value) (List.mem_cons_self _ _)
    simp [value_in_effect, ih (fun q hq => h q (List.mem_cons_of_mem _ hq)), h1]

/-- In a list ending with a setting of `key` followed only by settings of other
names, that setting is the one in effect. -/
theorem value_in_effect_of_last (key : CStr) (value : Option CStr)
    (pre post : List (CStr × Option CStr)) (h : ∀ p ∈ post, p.1 ≠ key) :
    value_in_effect key (pre ++ (key, value) :: post) = some value := by
  rw [value_in_effect_append]
  simp [value_in_effect, value_in_effect_of_not_set key post h]

/-- A property list that sets `key` can be split at its last setting of `key`. -/
theorem exists_last_property (key : CStr) (props : List KafkaProperty)
    (h : ∃ kp ∈ props, kp.name = key) :
    ∃ pre kp post, props = pre ++ kp :: post ∧ kp.name = key ∧ ∀ q ∈ post, q.name ≠ key := by
  induction props with
  | nil => obtain ⟨kp, hm, _⟩ := h; cases hm
  | cons p rest ih =>
    by_cases hrest : ∃ kp ∈ rest, kp.name = key
    · obtain ⟨pre, kp, post, heq, hn, hp⟩ := ih hrest
      exact ⟨p :: pre, kp, post, by rw [heq]; rfl, hn, hp⟩
    · have hp : p.name = key := by
        obtain ⟨kp, hm, hn⟩ := h
        rcases List.mem_cons.mp hm with he | hr
        · rw [← he]; exact hn
        · exact absurd ⟨kp, hr, hn⟩ hrest
      refine ⟨[], p, rest, rfl, hp, fun q hq hn => hrest ⟨q, hq, hn⟩⟩

/-! ## Order of the configuration properties: claim C11 -/

/-- C11: for every driver (so every bootstrap address and user property list)
and whatever `rd_kafka_conf_set` returns, the properties set by
`_construct_client` are, in this order, `metadata.broker.list` with the
bootstrap address, `topic.partitioner` with `murmur2_random`, then each user
property in list order; the user property list is the concatenation, in call
order, of the lists given to `kafka_dd_merge_config`; hence, when a later
setting replaces an earlier one of the same name, the value in effect for a
name that the user sets is the user's last value for it, a default never
replacing it, and the two defaults are in effect only for names the user does
not set. -/
theorem construct_client_applies_defaults_then_user_properties :
    (∀ (self : KafkaDestDriver) (ans : InitAnswers),
        conf_set_calls (_construct_client self ans).2 =
          ("metadata.broker.list".toList, self.bootstrap_servers) ::
          ("topic.partitioner".toList, some "murmur2_random".toList) ::
          self.config.map (fun kp => (kp.name, some kp.value))) ∧
    (∀ (self : KafkaDestDriver) (props : List KafkaProperty),
        (kafka_dd_merge_config self props).config = self.config ++ props) ∧
    (∀ ops : List Setter, (configured ops).config = merged_properties ops) ∧
    (∀ (self : KafkaDestDriver) (ans : InitAnswers) (pre : List KafkaProperty)
        (kp : KafkaProperty) (post : List KafkaProperty),
        self.config = pre ++ kp :: post → (∀ q ∈ post, q.name ≠ kp.name) →
        value_in_effect kp.name (conf_set_calls (_construct_client self ans).2) =
          some (some kp.value)) ∧
    (∀ (self : KafkaDestDriver) (ans : InitAnswers) (key : CStr),
        (∃ kp ∈ self.config, kp.name = key) →
        ∃ kp ∈ self.config, kp.name = key ∧
          value_in_effect key (conf_set_calls (_construct_client self ans).2) =
            some (some kp.value)) ∧
    (∀ (self : KafkaDestDriver) (ans : InitAnswers),
        (∀ kp ∈ self.config, kp.name ≠ "metadata.broker.list".toList) →
        value_in_effect "metadata.broker.list".toList
          (conf_set_calls (_construct_client self ans).2) = some self.bootstrap_servers) ∧
    (∀ (self : KafkaDestDriver) (ans : InitAnswers),
        (∀ kp ∈ self.config, kp.name ≠ "topic.partitioner".toList) →
        value_in_effect "topic.partitioner".toList
          (conf_set_calls (_construct_client self ans).2) =
            some (some "murmur2_random".toList)) := by
  have hlast : ∀ (self : KafkaDestDriver) (ans : InitAnswers) (pre : List KafkaProperty)
      (kp : KafkaProperty) (post : List KafkaProperty),
      self.config = pre ++ kp :: post → (∀ q ∈ post, q.name ≠ kp.name) →
      value_in_effect kp.name (conf_set_calls (_construct_client self ans).2) =
        some (some kp.value) := by
    intro self ans pre kp post hcfg hpost
    rw [conf_set_calls_construct_client, hcfg]
    have hshape :
        ("metadata.broker.list".toList, self.bootstrap_servers) ::
          ("topic.partitioner".toList, some "murmur2_random".toList) ::
          (pre ++ kp :: post).map (fun kp => (kp.name, some kp.value)) =
        (("metadata.broker.list".toList, self.bootstrap_servers) ::
          ("topic.partitioner".toList, some "murmur2_random".toList) ::
          pre.map (fun kp => (kp.name, some kp.value))) ++
          (kp.name, some kp.value) :: post.map (fun kp => (kp.name, some kp.value)) := by
      rw [List.map_append, List.map_cons]; rfl
    rw [hshape]
    apply value_in_effect_of_last
    intro p hp
    obtain ⟨q, hq, rfl⟩ := List.mem_map.mp hp
    exact hpost q hq
  have hunset : ∀ (key : CStr) (props : List KafkaProperty),
      (∀ kp ∈ props, kp.name ≠ key) →
      value_in_effect key (props.map (fun kp => (kp.name, some kp.value))) = none := by
    intro key props h
    apply value_in_effect_of_not_set
    intro p hp
    obtain ⟨q, hq, rfl⟩ := List.mem_map.mp hp
    exact h q hq
  refine ⟨conf_set_calls_construct_client, fun _ _ => rfl, ?_, hlast, ?_, ?_, ?_⟩
  · intro ops
    have h := foldl_setters_config ops kafka_dd_new
    simpa [configured, kafka_dd_new] using h
  · intro self ans key hex
    obtain ⟨pre, kp, post, hcfg, hn, hpost⟩ := exists_last_property key self.config hex
    subst hn
    refine ⟨kp, ?_, rfl, hlast self ans pre kp post hcfg hpost⟩
    rw [hcfg]; simp
  · intro self ans h
    rw [conf_set_calls_construct_client]
    have hne : ¬ "topic.partitioner".toList = "metadata.broker.list".toList := by decide
    rw [value_in_effect, value_in_effect, hunset _ _ h]
    simp only [if_neg hne, if_true]
  · intro self ans h
    rw [conf_set_calls_construct_client]
    rw [value_in_effect, value_in_effect, hunset _ _ h]
    simp only [if_true]

/-- Instance of C11 at a driver whose user properties set `topic.partitioner`
twice: the property list is the concatenation of the merged lists, and the
value in effect for `topic.partitioner` is the user's last one, `random`. -/
theorem construct_client_applies_defaults_then_user_properties_witness :
    (configured property_setters).config =
      [{ name := "topic.partitioner".toList, value := "consistent".toList },
        { name := "acks".toList, value := "all".toList },
        { name := "topic.partitioner".toList, value := "random".toList }] ∧
    value_in_effect "topic.partitioner".toList
      (conf_set_calls (_construct_client (configured property_setters) (init_answers_ok 1)).2) =
        some (some "random".toList) ∧
    value_in_effect "metadata.broker.list".toList
      (conf_set_calls (_construct_client (configured property_setters) (init_answers_ok 1)).2) =
        some (some "localhost:9092".toList) :=
  ⟨construct_client_applies_defaults_then_user_properties.2.2.1 property_setters,
    construct_client_applies_defaults_then_user_properties.2.2.2.1
      (configured property_setters) (init_answers_ok 1)
      [{ name := "topic.partitioner".toList, value := "consistent".toList },
        { name := "acks".toList, value := "all".toList }]
      { name := "topic.partitioner".toList, value := "random".toList } [] rfl (by decide),
    construct_client_applies_defaults_then_user_properties.2.2.2.2.2.1
      (configured property_setters) (init_answers_ok 1) (by decide)⟩

end KafkaDest
